import Mathlib

/-!
Shallow embedding of the register-access core of `sdmac.c` (Amiga 3000
Super DMAC / WD33C93 diagnostic utility).

Hardware is modelled as a machine state `M`:
* `sasr` is the SDMAC SASR register (the WDC indirect-window index); a read
  of `SDMAC_SASR_B` returns it, a write of `SDMAC_SASR_B2` sets it.
* reads of the WDC data window (`SDMAC_SCMD`), of `SDMAC_ISTR` and of the
  CIA timer bytes are nondeterministic hardware responses, modelled as
  oracle lists consumed one entry per read (missing entries read as 0);
  every bus read of a byte register is truncated to 8 bits.
* writes to the WDC data window are logged as pairs
  (value of SASR at the write, byte written).
* `irq` models the `irq_disabled` nesting counter (a C `uint8_t`).
`cia_spin` (a pure timing delay) and `printf` text are not modelled; the
register reads that appear inside `printf` argument lists are modelled
left to right (the C evaluation order is unspecified).
-/

structure M where
  irq : Nat
  sasr : Nat
  scmdReads : List Nat
  scmdWrites : List (Nat × Nat)
  failReports : List Nat
  istrReads : List Nat
  ciaReads : List Nat
  wdcSaved : Nat
  wdcStore : List Nat
  wdLevel : Nat
  efreq : Nat
  userAbort : Bool
  clrInt : Nat

/-- Value of the k-th pending WDC data-window (SCMD) read, as an 8-bit byte. -/
def auxAt (s : M) (k : Nat) : Nat :=
  ((s.scmdReads.drop k).headD 0) % 256

/-- Value of the k-th pending SDMAC_ISTR read, as an 8-bit byte. -/
def istrAt (s : M) (k : Nat) : Nat :=
  ((s.istrReads.drop k).headD 0) % 256

/-- Value of the k-th pending CIA timer byte read. -/
def ciaAt (s : M) (k : Nat) : Nat :=
  ((s.ciaReads.drop k).headD 0) % 256

/-- INTERRUPTS_DISABLE: `if (irq_disabled++ == 0) Disable();` on a uint8_t. -/
def interrupts_disable (s : M) : M :=
  { s with irq := (s.irq + 1) % 256 }

/-- INTERRUPTS_ENABLE: `if (--irq_disabled == 0) Enable();` on a uint8_t. -/
def interrupts_enable (s : M) : M :=
  { s with irq := (s.irq + 255) % 256 }

/-- set_wdc_index: byte write of the index to SDMAC_SASR_B2. -/
def set_wdc_index (v : Nat) (s : M) : M :=
  { s with sasr := v % 256 }

/-- get_wdc_reg (sdmac.c:398): save SASR, select `reg`, read the data
window, restore SASR, all between INTERRUPTS_DISABLE/ENABLE. -/
def get_wdc_reg (reg : Nat) (s : M) : Nat × M :=
  let s1 := interrupts_disable s
  let oindex := s1.sasr
  let s2 := set_wdc_index reg s1
  let value := (s2.scmdReads.headD 0) % 256
  let s3 := { s2 with scmdReads := s2.scmdReads.tail }
  let s4 := set_wdc_index oindex s3
  (value, interrupts_enable s4)

/-- set_wdc_reg (sdmac.c:419): save SASR, select `reg`, write the data
window, restore SASR, all between INTERRUPTS_DISABLE/ENABLE. -/
def set_wdc_reg (reg value : Nat) (s : M) : M :=
  let s1 := interrupts_disable s
  let oindex := s1.sasr
  let s2 := set_wdc_index reg s1
  let s3 := { s2 with scmdWrites := s2.scmdWrites ++ [(s2.sasr, value % 256)] }
  let s4 := set_wdc_index oindex s3
  interrupts_enable s4

/-- set_wdc_reg24 (sdmac.c:438): three byte writes of
`value >> 24`, `value >> 18` and `value` to the data window. -/
def set_wdc_reg24 (reg value : Nat) (s : M) : M :=
  let s1 := interrupts_disable s
  let oindex := s1.sasr
  let s2 := set_wdc_index reg s1
  let s3 := { s2 with scmdWrites := s2.scmdWrites ++ [(s2.sasr, (value >>> 24) % 256)] }
  let s4 := { s3 with scmdWrites := s3.scmdWrites ++ [(s3.sasr, (value >>> 18) % 256)] }
  let s5 := { s4 with scmdWrites := s4.scmdWrites ++ [(s4.sasr, value % 256)] }
  let s6 := set_wdc_index oindex s5
  interrupts_enable s6

/-- The condition scsi_wait polls for: some `cond` bit set when
`wait_for_set` is nonzero, all `cond` bits clear when it is zero. -/
def scsi_wait_sat (cond wfs auxst : Nat) : Bool :=
  if wfs ≠ 0 then decide (auxst &&& cond ≠ 0) else decide (auxst &&& cond = 0)

/-- Polling loop of scsi_wait (sdmac.c:935), fuel = remaining iterations. -/
def scsi_wait_go (cond wfs : Nat) : Nat → M → Nat × M
  | 0, s => (0x100, s)
  | fuel + 1, s =>
    let r := get_wdc_reg 0x1f s
    if scsi_wait_sat cond wfs r.1 then (r.1, r.2)
    else scsi_wait_go cond wfs fuel r.2

/-- scsi_wait (sdmac.c:935): poll WDC_AUXST up to 25000 times; return the
status that satisfied the condition, or the sentinel 0x100 on timeout. -/
def scsi_wait (cond wfs : Nat) (s : M) : Nat × M :=
  scsi_wait_go cond wfs 25000 s

/-- scsi_wait_cip (sdmac.c:952): wait for Command-In-Progress to clear. -/
def scsi_wait_cip (s : M) : Nat × M :=
  scsi_wait 0x10 0 s

/-- get_wdc_reg_extended (sdmac.c:969): registers ≥ 0x40 are read through
the GET_REGISTER (0x44) pseudo-command using CDB1/CDB2 as scratch. -/
def get_wdc_reg_extended (reg : Nat) (s : M) : Nat × M :=
  if reg < 0x40 then get_wdc_reg reg s
  else
    let s0 := interrupts_disable s
    let r0 := scsi_wait_cip s0
    let r1 := get_wdc_reg 0x03 r0.2
    let reg3 := r1.1
    let r2 := get_wdc_reg 0x04 r1.2
    let reg4 := r2.1
    let s1 := set_wdc_reg 0x03 reg r2.2
    let r3 := get_wdc_reg 0x17 s1
    let s2 := set_wdc_reg 0x18 0x44 r3.2
    let r4 := scsi_wait_cip s2
    let r5 := get_wdc_reg 0x17 r4.2
    let scsi_stat := r5.1
    let r6 := get_wdc_reg 0x04 r5.2
    let value := r6.1
    let s3 := set_wdc_reg 0x03 reg3 r6.2
    let s4 := set_wdc_reg 0x04 reg4 s3
    let s5 := interrupts_enable s4
    let s6 :=
      if scsi_stat ≠ (0x44 ||| 0x10) then
        { s5 with failReports := s5.failReports ++ [scsi_stat] }
      else s5
    (value, s6)

/-- set_wdc_reg_extended (sdmac.c:1007): registers ≥ 0x40 are written
through the SET_REGISTER (0x45) pseudo-command using CDB1/CDB2 as scratch. -/
def set_wdc_reg_extended (reg value : Nat) (s : M) : M :=
  if reg < 0x40 then set_wdc_reg reg value s
  else
    let s0 := interrupts_disable s
    let r0 := scsi_wait_cip s0
    let r1 := get_wdc_reg 0x03 r0.2
    let reg3 := r1.1
    let r2 := get_wdc_reg 0x04 r1.2
    let reg4 := r2.1
    let s1 := set_wdc_reg 0x03 reg r2.2
    let s1b := set_wdc_reg 0x04 value s1
    let r3 := get_wdc_reg 0x17 s1b
    let s2 := set_wdc_reg 0x18 0x45 r3.2
    let r4 := scsi_wait_cip s2
    let r5 := get_wdc_reg 0x17 r4.2
    let scsi_stat := r5.1
    let s3 := set_wdc_reg 0x03 reg3 r5.2
    let s4 := set_wdc_reg 0x04 reg4 s3
    let s5 := interrupts_enable s4
    if scsi_stat ≠ (0x45 ||| 0x10) then
      { s5 with failReports := s5.failReports ++ [scsi_stat] }
    else s5

/-- OWN_ID value programmed by scsi_soft_reset (sdmac.c:1067): clock
divisor 3, SCSI bus id 7, plus the EAF/RAF advanced-feature bits when
requested. -/
def wdc_own_id (enhanced : Nat) : Nat :=
  0x40 ||| 0x07 |||
    (if enhanced ≠ 0 then 0x08 else 0) |||
    (if enhanced > 1 then 0x20 else 0)

/-- scsi_soft_reset (sdmac.c:1055): program OWN_ID (clock divisor plus the
requested advanced-feature bits), issue RESET, wait for CIP to clear and
the interrupt to pend, clear SYNC_TX.  Returns 1 on reset timeout.  The
direct Enable/Disable pair around the timeout printf does not touch the
`irq_disabled` counter and is not modelled. -/
def scsi_soft_reset (enhanced : Nat) (s : M) : Nat × M :=
  let s0 := interrupts_disable s
  let ra := get_wdc_reg 0x1f s0
  let rb := get_wdc_reg 0x17 ra.2
  let s1 := set_wdc_reg 0x00 (wdc_own_id enhanced) rb.2
  let s2 := set_wdc_reg 0x18 0x00 s1
  let w1 := scsi_wait 0x10 0 s2
  let w2 := if w1.1 ≠ 0x100 then scsi_wait 0x80 1 w1.2 else w1
  let s3 := set_wdc_reg 0x11 0 w2.2
  let s4 := interrupts_enable s3
  if w2.1 = 0x100 then (1, s4) else (0, s4)

/-- Combination step of cia_ticks (sdmac.c:895) on the three byte reads
hi1, lo, hi2: `lo |= (uint8_t)(hi2 - hi1); return lo | (hi2 << 8);`. -/
def cia_ticks_calc (hi1 lo hi2 : Nat) : Nat :=
  let lo2 := lo ||| ((hi2 + 256 - hi1) % 256)
  lo2 ||| (hi2 <<< 8)

/-- One byte read of a CIA timer register. -/
def cia_read (s : M) : Nat × M :=
  ((s.ciaReads.headD 0) % 256, { s with ciaReads := s.ciaReads.tail })

/-- cia_ticks (sdmac.c:895): read TBHI, TBLO, TBHI and combine. -/
def cia_ticks (s : M) : Nat × M :=
  let r1 := cia_read s
  let r2 := cia_read r1.2
  let r3 := cia_read r2.2
  (cia_ticks_calc r1.1 r2.1 r3.1, r3.2)

/-- One byte read of SDMAC_ISTR. -/
def istr_read (s : M) : Nat × M :=
  ((s.istrReads.headD 0) % 256, { s with istrReads := s.istrReads.tail })

/-- Polling loop of calc_wdc_clock (sdmac.c:1420):
`while ((*SDMAC_ISTR & INT_S) == 0) if (--count == 0) break;`,
entered with count = 200000; returns the remaining count. -/
def calc_wdc_poll : Nat → M → Nat × M
  | 0, s => (0, s)
  | count + 1, s =>
    let r := istr_read s
    if r.1 &&& 0x40 ≠ 0 then (count + 1, r.2)
    else if count = 0 then (0, r.2)
    else calc_wdc_poll count r.2

/-- Microcode-latency compensation of calc_wdc_clock (sdmac.c:1432):
292 ticks for LEVEL_WD33C93 (1, also the default), 380 for
LEVEL_WD33C93A (2), 260 for LEVEL_WD33C93B (3). -/
def wdc_latency_offset : Nat → Nat
  | 2 => 380
  | 3 => 260
  | _ => 292

/-- calc_wdc_clock (sdmac.c:1362): force a select timeout on ID 7 LUN 7
with timeout register 10, time it with the CIA counter, and return
`efreq * 10 * 80 / ticks` (C unsigned 32-bit arithmetic).  Note the early
`return (0)` when the post-reset status reads 0xff happens before
INTERRUPTS_ENABLE, exactly as in the source. -/
def calc_wdc_clock (s : M) : Nat × M :=
  let sA := interrupts_disable s
  let sB := (scsi_wait_cip sA).2
  let sC := (scsi_soft_reset 0 sB).2
  let rs := get_wdc_reg 0x17 sC
  let sstat := rs.1
  if sstat = 0xff then (0, rs.2)
  else
    let s1 := set_wdc_reg 0x15 7 rs.2
    let s2 := set_wdc_reg 0x0f 7 s1
    let s3 := set_wdc_reg 0x11 0 s2
    let s4 := set_wdc_reg 0x01 (0x04 ||| 0x08) s3
    let s5 := set_wdc_reg 0x02 10 s4
    let s6 := (cia_ticks s5).2
    let s7 := set_wdc_reg 0x18 0x06 s6
    let s8 := (scsi_wait_cip s7).2
    let rt1 := cia_ticks s8
    let rp := calc_wdc_poll 200000 rt1.2
    let count := rp.1
    let rt2 := cia_ticks rp.2
    let ticks1 := (rt1.1 + 65536 - rt2.1 % 65536) % 65536
    let ticks := (ticks1 + 65536 - wdc_latency_offset rt2.2.wdLevel) % 65536
    let s9 := (scsi_soft_reset 0 rt2.2).2
    let s10 := interrupts_enable s9
    if count = 0 then (0, s10)
    else (((s10.efreq * 10) % 4294967296 * 80) % 4294967296 / ticks, s10)

/-- Elapsed-tick value of a pinned calc_wdc_clock run: the difference of
the second and third cia_ticks samples (CIA byte reads 3-5 and 6-8) in
16-bit arithmetic, with the revision-dependent latency offset subtracted. -/
def calc_wdc_elapsed (s : M) : Nat :=
  let t1 := cia_ticks_calc (ciaAt s 3) (ciaAt s 4) (ciaAt s 5)
  let t2 := cia_ticks_calc (ciaAt s 6) (ciaAt s 7) (ciaAt s 8)
  ((t1 + 65536 - t2 % 65536) % 65536 + 65536 - wdc_latency_offset s.wdLevel) % 65536

/-- WDC_SAVE_MASK (sdmac.c:1329): OWN_ID, CONTROL, TPERIOD, CMDPHASE,
SYNC_TX. -/
def wdc_save_mask : Nat :=
  (1 <<< 0x00) ||| (1 <<< 0x01) ||| (1 <<< 0x02) ||| (1 <<< 0x10) ||| (1 <<< 0x11)

/-- scsi_save_regs (sdmac.c:1332): read every register in the save mask
into the store, then increment the (uint8_t) outstanding-save counter. -/
def scsi_save_regs (s : M) : M :=
  let s1 := (List.range 32).foldl
    (fun acc pos =>
      if (1 <<< pos) &&& wdc_save_mask ≠ 0 then
        let r := get_wdc_reg pos acc
        { r.2 with wdcStore := r.2.wdcStore.set pos r.1 }
      else acc) s
  { s1 with wdcSaved := (s1.wdcSaved + 1) % 256 }

/-- scsi_restore_regs (sdmac.c:1343): `if (wdc_regs_saved--)` write every
masked register back from the store (the uint8_t counter decrements, and
underflows, unconditionally). -/
def scsi_restore_regs (s : M) : M :=
  let old := s.wdcSaved
  let s1 := { s with wdcSaved := (s.wdcSaved + 255) % 256 }
  if old ≠ 0 then
    (List.range 32).foldl
      (fun acc pos =>
        if (1 <<< pos) &&& wdc_save_mask ≠ 0 then
          set_wdc_reg pos (acc.wdcStore.getD pos 0) acc
        else acc) s1
  else s1

/-- scsi_set_transfer_len (sdmac.c:2096): 24-bit write to WDC_TCOUNT2. -/
def scsi_set_transfer_len (len : Nat) (s : M) : M :=
  set_wdc_reg24 0x12 len s

/-- scsi_set_cdb (sdmac.c:2193): write the CDB length to WDC_OWN_ID and
the CDB bytes to WDC_CDB1.. (rejects length ≥ 12 with no writes). -/
def scsi_set_cdb (bytes : List Nat) (s : M) : M :=
  if bytes.length ≥ 12 then s
  else
    let s1 := set_wdc_reg 0x00 bytes.length s
    (List.range bytes.length).foldl
      (fun acc pos => set_wdc_reg (0x03 + pos) (bytes.getD pos 0) acc) s1

/-- scsi_select (sdmac.c:2102): program target/LUN/timeout, issue
SELECT_WITH_ATN, wait for CIP to clear (0xff on timeout), wait for
LCI or INT, and return the SCSI status byte. -/
def scsi_select (target : Nat) (s : M) : Nat × M :=
  let s1 := set_wdc_reg 0x15 ((target &&& 0xf) ||| 0) s
  let s2 := set_wdc_reg 0x16 0 s1
  let s3 := set_wdc_reg 0x0f (target >>> 8) s2
  let s4 := set_wdc_reg 0x11 0 s3
  let s5 := set_wdc_reg 0x02 (250 * 14200 / 80000 + 1) s4
  let s6 := scsi_set_transfer_len 0 s5
  let s7 := set_wdc_reg 0x18 0x06 s6
  let r := scsi_wait_cip s7
  if r.1 = 0x100 then
    let ra := get_wdc_reg 0x1f r.2
    let rb := get_wdc_reg 0x17 ra.2
    (0xff, rb.2)
  else
    let rw := scsi_wait (0x40 ||| 0x80) 1 r.2
    let rs := get_wdc_reg 0x17 rw.2
    let s8 := interrupts_enable rs.2
    let s9 := interrupts_disable s8
    (rs.1, s9)

/-- scsi_transfer_start (sdmac.c:2208): set or clear the data-phase
direction bit of WDC_DST_ID according to the phase. -/
def scsi_transfer_start (phase : Nat) (s : M) : M :=
  if phase = 1 ∨ phase = 7 then
    let r := get_wdc_reg 0x15 s
    set_wdc_reg 0x15 (r.1 ||| 0x40) r.2
  else if phase = 0 ∨ phase = 6 ∨ phase = 2 then
    let r := get_wdc_reg 0x15 s
    set_wdc_reg 0x15 (r.1 &&& 0xbf) r.2
  else s

/-- scsi_abort (sdmac.c:2176): wait for CIP, issue ABORT, wait for CIP,
then for an interrupt. -/
def scsi_abort (s : M) : M :=
  let r := scsi_wait_cip s
  if r.1 = 0x100 then
    let ra := get_wdc_reg 0x1f r.2
    let rb := get_wdc_reg 0x17 ra.2
    rb.2
  else
    let s1 := set_wdc_reg 0x18 0x01 r.2
    let r2 := scsi_wait_cip s1
    if r2.1 ≠ 0x100 then (scsi_wait 0x80 1 r2.2).2 else r2.2

/-- Outcome of one probe_scsi loop iteration: whether the loop breaks, and
the `present` flag that the iteration reports for the target. -/
structure ProbeOut where
  brk : Bool
  present : Bool

/-- Steps of one probe_scsi iteration (sdmac.c:2364-2381) before the
select: wait for CIP, sanity-check the status byte, disable WDC DMA mode,
load the TEST UNIT READY CDB, zero the transfer length.  Returns `true`
when the iteration breaks before reaching the select. -/
def probe_pre (s : M) : Bool × M :=
  let r := scsi_wait_cip s
  if r.1 = 0x100 then
    let ra := get_wdc_reg 0x1f r.2
    let rb := get_wdc_reg 0x17 ra.2
    (true, rb.2)
  else
    let rs := get_wdc_reg 0x17 r.2
    if rs.1 &&& 0xe0 ≠ 0 then (true, rs.2)
    else
      let s1 := set_wdc_reg 0x01 (0x04 ||| 0x08) rs.2
      let s2 := scsi_set_cdb [0, 0, 0, 0, 0, 0] s1
      let s3 := scsi_set_transfer_len 0 s2
      (false, s3)

/-- Common tail of one probe_scsi iteration (sdmac.c:2460-2489): wait for
CIP, soft reset, wait for CIP again, clear reset status and pending
interrupts, check for user abort, report `present`. -/
def probe_tail (present : Bool) (s : M) : ProbeOut × M :=
  let r := scsi_wait_cip s
  if r.1 = 0x100 then
    let ra := get_wdc_reg 0x1f r.2
    let rb := get_wdc_reg 0x17 ra.2
    (⟨true, present⟩, rb.2)
  else
    let s1 := (scsi_soft_reset 0 r.2).2
    let r2 := scsi_wait_cip s1
    if r2.1 = 0x100 then
      let ra := get_wdc_reg 0x1f r2.2
      let rb := get_wdc_reg 0x17 ra.2
      (⟨true, present⟩, rb.2)
    else
      let rst := get_wdc_reg 0x17 r2.2
      let s2 := { rst.2 with clrInt := rst.2.clrInt + 1 }
      if s2.userAbort then (⟨true, present⟩, s2)
      else
        let s3 := interrupts_enable s2
        let s4 := interrupts_disable s3
        (⟨false, present⟩, s4)

/-- Status-settling loop of the connected branch (sdmac.c:2388-2394):
re-read SCSI_STAT up to 10 times while it still equals the select status. -/
def sel_wait (sstat : Nat) : Nat → Nat → M → Nat × Nat × M
  | 0, sstat2, s => (0, sstat2, s)
  | t + 1, sstat2, s =>
    if sstat2 ≠ sstat then (t + 1, sstat2, s)
    else
      let r := get_wdc_reg 0x17 s
      if t = 0 then (0, r.1, r.2)
      else sel_wait sstat t r.1 r.2

/-- Branch of one probe_scsi iteration after scsi_select returned `sstat`
(sdmac.c:2383-2458).  The polled transfer primitives scsi_transfer_in and
scsi_transfer_out are parameters `xin`/`xout` (phase- resp. length-indexed,
returning the C int result). -/
def probe_post (xin xout : Nat → M → Int × M) (target sstat : Nat) (s : M) :
    ProbeOut × M :=
  let r2 := get_wdc_reg 0x17 s
  let sstat2 := r2.1
  let sA := set_wdc_reg 0x16 0 r2.2
  if sstat = 0x11 then
    let w := sel_wait sstat 10 sstat2 sA
    if w.1 = 0 then (⟨true, false⟩, w.2.2)
    else
      let phase := w.2.1 &&& 0x07
      let rc := scsi_wait_cip w.2.2
      if rc.1 = 0x100 then
        let ra := get_wdc_reg 0x1f rc.2
        let rb := get_wdc_reg 0x17 ra.2
        (⟨true, true⟩, rb.2)
      else
        let sB := set_wdc_reg 0x15 (target &&& 0x7) rc.2
        let sC := scsi_transfer_start phase sB
        let rc2 := scsi_wait_cip sC
        if rc2.1 = 0x100 then
          let ra := get_wdc_reg 0x1f rc2.2
          let rb := get_wdc_reg 0x17 ra.2
          (⟨true, true⟩, rb.2)
        else
          let sD := (get_wdc_reg 0x1f rc2.2).2
          let sE := (get_wdc_reg 0x1f sD).2
          let sF := (get_wdc_reg 0x1f sE).2
          let r4 := get_wdc_reg 0x1f sF
          let auxst := r4.1
          let sG := if auxst &&& 0x80 ≠ 0 then (get_wdc_reg 0x17 r4.2).2 else r4.2
          if auxst &&& 0x40 ≠ 0 then
            let rb := get_wdc_reg 0x17 sG
            (⟨true, true⟩, rb.2)
          else
            let xr := if phase = 1 ∨ phase = 7 then xin phase sG else xout 6 sG
            if xr.1 ≤ 0 then (⟨true, true⟩, xr.2)
            else
              let sH := set_wdc_reg 0x01 (0x04 ||| 0x08) xr.2
              let sI := scsi_abort sH
              probe_tail true sI
  else if sstat = 0x42 then
    probe_tail false sA
  else
    (⟨true, false⟩, sA)

/-- One full iteration of the probe_scsi target loop (sdmac.c:2359-2490). -/
def probe_scsi_target (xin xout : Nat → M → Int × M) (target : Nat) (s : M) :
    ProbeOut × M :=
  let p := probe_pre s
  if p.1 then (⟨true, false⟩, p.2)
  else
    let r := scsi_select target p.2
    probe_post xin xout target r.1 r.2

/-- Probe patterns of get_sdmac_version (sdmac.c:1132-1139). -/
def sdmac_wtc_pattern : Nat → Nat
  | 0 => 0x00000000
  | 1 => 0xffffffff
  | 2 => 0xa5a5a5a5
  | 3 => 0x5a5a5a5a
  | 4 => 0xc2c2c3c3
  | _ => 0x3c3c3c3c

/-- Observation of pass `p` that makes get_sdmac_version fail: either a
mixed (not all-zeros/all-ones) pattern read back exactly, or a low-24-bit
mismatch with bit 2 reading 1. -/
def sdmac_fail_obs (resp : Nat → Nat) (p : Nat) : Prop :=
  let w := sdmac_wtc_pattern p
  let r := resp p % 4294967296
  (r = w ∧ w ≠ 0x00000000 ∧ w ≠ 0xffffffff) ∨
  (r ≠ w ∧ (r ^^^ w) &&& 0xffffff ≠ 0 ∧ r &&& 0x4 ≠ 0)

/-- Observation of pass `p` that makes get_sdmac_version classify the DMA
engine as SDMAC-04: low-24-bit mismatch with bit 2 written 1 but read 0. -/
def sdmac_rev4_obs (resp : Nat → Nat) (p : Nat) : Prop :=
  let w := sdmac_wtc_pattern p
  let r := resp p % 4294967296
  r ≠ w ∧ (r ^^^ w) &&& 0xffffff ≠ 0 ∧ r &&& 0x4 = 0 ∧ w &&& 0x4 ≠ 0

instance sdmac_fail_obs_dec (resp : Nat → Nat) (p : Nat) :
    Decidable (sdmac_fail_obs resp p) := by
  unfold sdmac_fail_obs; infer_instance

instance sdmac_rev4_obs_dec (resp : Nat → Nat) (p : Nat) :
    Decidable (sdmac_rev4_obs resp p) := by
  unfold sdmac_rev4_obs; infer_instance

/-- Pass loop of get_sdmac_version (sdmac.c:1130-1173).  `resp p` is the
32-bit value the WTC register reads back after pattern `p` is written. -/
def sdmac_probe_go (resp : Nat → Nat) : List Nat → Nat → Nat × String
  | [], version => (version, "")
  | p :: rest, version =>
    let w := sdmac_wtc_pattern p
    let r := resp p % 4294967296
    if r = w then
      if w ≠ 0x00000000 ∧ w ≠ 0xffffffff then
        (0, "read-only register bits not read-only")
      else sdmac_probe_go resp rest version
    else if (r ^^^ w) &&& 0xffffff = 0 then sdmac_probe_go resp rest version
    else if r &&& 0x4 = 0 then
      if w &&& 0x4 ≠ 0 then sdmac_probe_go resp rest 4
      else sdmac_probe_go resp rest version
    else (0, "bit corruption in WTC register")

/-- get_sdmac_version (sdmac.c:1110): returns the detected revision (2 or
4) or 0 on detection failure, together with the recorded failure reason
(`sdmac_fail_reason`).  `istr` is the SDMAC_ISTR byte read on entry. -/
def get_sdmac_version (istr : Nat) (resp : Nat → Nat) : Nat × String :=
  if istr &&& 0x01 ≠ 0 ∧ istr &&& 0x02 ≠ 0 then (0, "FIFO register test fail")
  else sdmac_probe_go resp (List.range 6) 2

/-- Baseline machine state used by the concrete evaluations. -/
def m0 : M :=
  { irq := 0, sasr := 0, scmdReads := [], scmdWrites := [], failReports := [],
    istrReads := [], ciaReads := [], wdcSaved := 0,
    wdcStore := List.replicate 32 0, wdLevel := 0, efreq := 0,
    userAbort := false, clrInt := 0 }

/-- Machine state on which calc_wdc_clock reads 0xff as post-reset status:
CIP clear, reset completing immediately, then SCSI status 0xff. -/
def calc_leak_state : M :=
  { m0 with scmdReads := [0x00, 0x00, 0x00, 0x00, 0x80, 0xff], wdLevel := 1,
            efreq := 715909 }

/-- Machine state for the nominal calc_wdc_clock run: status 0x00 after
reset, SCSI interrupt pending at the first ISTR poll, CIA ticks 0x1000
before the wait and 0x0c00 after. -/
def calc_ok_state : M :=
  { m0 with
    scmdReads := [0x00, 0x00, 0x00, 0x00, 0x80, 0x00, 0x00, 0x00, 0x00, 0x00, 0x80],
    istrReads := [0x40],
    ciaReads := [0x00, 0x00, 0x00, 0x10, 0x00, 0x10, 0x0c, 0x00, 0x0c],
    wdLevel := 2, efreq := 715909 }

/-- Machine state for the no-response probe scenario: CIP always clear,
select completing with interrupt pending and SCSI status 0x42. -/
def probe_to_state : M :=
  { m0 with scmdReads := [0x00, 0x00, 0x00, 0x80, 0x42, 0x00, 0x00, 0x00, 0x00, 0x80, 0x00] }

/-- Machine state used for the double scsi_save_regs evaluation: the five
masked registers read 1..5 on the first save and 6..10 on the second. -/
def save_state : M :=
  { m0 with scmdReads := [1, 2, 3, 4, 5, 6, 7, 8, 9, 10] }

/-- Machine state used for the extended-register access evaluation. -/
def ext_state : M :=
  { m0 with scmdReads := [0x00, 0x21, 0x22, 0x00, 0x00, 0x99, 0x5d] }

/-- Example WTC read-back behaviour of an SDMAC-04: the upper byte reads
zero and bit 2 of the all-ones pattern reads back 0. -/
def sdmac_resp_rev4 : Nat → Nat :=
  fun p => if p = 1 then 0x00fffffb else sdmac_wtc_pattern p % 16777216

/-! ### Generic list and byte lemmas -/

set_option maxRecDepth 4000

lemma tail_eq_drop {α : Type} (l : List α) : l.tail = l.drop 1 :=
  (List.drop_one l).symm

lemma drop_comp {α : Type} (l : List α) (m n : Nat) :
    (l.drop m).drop n = l.drop (n + m) :=
  (List.drop_drop n m l).trans (by rw [Nat.add_comm])

lemma lor_byte_255 : ∀ x : Fin 256, x.val ||| 255 = 255 := by decide

/-! ### Projection lemmas for the register primitives -/

lemma get_wdc_reg_fst (reg : Nat) (s : M) : (get_wdc_reg reg s).1 = auxAt s 0 := rfl

lemma get_wdc_reg_reads (reg : Nat) (s : M) :
    (get_wdc_reg reg s).2.scmdReads = s.scmdReads.drop 1 := by
  rw [← tail_eq_drop]; rfl

lemma get_wdc_reg_sasr (reg : Nat) (s : M) :
    (get_wdc_reg reg s).2.sasr = s.sasr % 256 := rfl

lemma get_wdc_reg_writes (reg : Nat) (s : M) :
    (get_wdc_reg reg s).2.scmdWrites = s.scmdWrites := rfl

lemma get_wdc_reg_fail (reg : Nat) (s : M) :
    (get_wdc_reg reg s).2.failReports = s.failReports := rfl

lemma get_wdc_reg_istr (reg : Nat) (s : M) :
    (get_wdc_reg reg s).2.istrReads = s.istrReads := rfl

lemma get_wdc_reg_cia (reg : Nat) (s : M) :
    (get_wdc_reg reg s).2.ciaReads = s.ciaReads := rfl

lemma get_wdc_reg_level (reg : Nat) (s : M) :
    (get_wdc_reg reg s).2.wdLevel = s.wdLevel := rfl

lemma get_wdc_reg_efreq (reg : Nat) (s : M) :
    (get_wdc_reg reg s).2.efreq = s.efreq := rfl

lemma set_wdc_reg_reads (reg v : Nat) (s : M) :
    (set_wdc_reg reg v s).scmdReads = s.scmdReads := rfl

lemma set_wdc_reg_sasr (reg v : Nat) (s : M) :
    (set_wdc_reg reg v s).sasr = s.sasr % 256 := rfl

lemma set_wdc_reg_writes (reg v : Nat) (s : M) :
    (set_wdc_reg reg v s).scmdWrites = s.scmdWrites ++ [(reg % 256, v % 256)] := rfl

lemma set_wdc_reg_fail (reg v : Nat) (s : M) :
    (set_wdc_reg reg v s).failReports = s.failReports := rfl

lemma set_wdc_reg_istr (reg v : Nat) (s : M) :
    (set_wdc_reg reg v s).istrReads = s.istrReads := rfl

lemma set_wdc_reg_cia (reg v : Nat) (s : M) :
    (set_wdc_reg reg v s).ciaReads = s.ciaReads := rfl

lemma set_wdc_reg_level (reg v : Nat) (s : M) :
    (set_wdc_reg reg v s).wdLevel = s.wdLevel := rfl

lemma set_wdc_reg_efreq (reg v : Nat) (s : M) :
    (set_wdc_reg reg v s).efreq = s.efreq := rfl

lemma set_wdc_reg24_sasr (reg v : Nat) (s : M) :
    (set_wdc_reg24 reg v s).sasr = s.sasr % 256 := rfl

lemma auxAt_of_drop (s s' : M) (n k : Nat)
    (h : s'.scmdReads = s.scmdReads.drop n) : auxAt s' k = auxAt s (k + n) := by
  rw [auxAt, auxAt, h, drop_comp]

/-! ### scsi_wait lemmas -/

lemma scsi_wait_go_succ (cond wfs fuel : Nat) (s : M) :
    scsi_wait_go cond wfs (fuel + 1) s =
      (if scsi_wait_sat cond wfs (auxAt s 0) then
        (auxAt s 0, (get_wdc_reg 0x1f s).2)
      else scsi_wait_go cond wfs fuel (get_wdc_reg 0x1f s).2) := rfl

lemma scsi_wait_go_sasr (cond wfs : Nat) : ∀ (fuel : Nat) (s : M),
    (scsi_wait_go cond wfs (fuel + 1) s).2.sasr = s.sasr % 256 := by
  intro fuel
  induction fuel with
  | zero =>
    intro s
    rw [scsi_wait_go_succ]
    by_cases h : scsi_wait_sat cond wfs (auxAt s 0) = true
    · rw [if_pos h, get_wdc_reg_sasr]
    · simp only [Bool.not_eq_true] at h
      rw [if_neg (by simp [h]), scsi_wait_go, get_wdc_reg_sasr]
  | succ n ih =>
    intro s
    rw [scsi_wait_go_succ]
    by_cases h : scsi_wait_sat cond wfs (auxAt s 0) = true
    · rw [if_pos h, get_wdc_reg_sasr]
    · simp only [Bool.not_eq_true] at h
      rw [if_neg (by simp [h]), ih, get_wdc_reg_sasr]
      omega

lemma scsi_wait_sasr (cond wfs : Nat) (s : M) :
    (scsi_wait cond wfs s).2.sasr = s.sasr % 256 :=
  scsi_wait_go_sasr cond wfs 24999 s

lemma scsi_wait_go_writes (cond wfs : Nat) : ∀ (fuel : Nat) (s : M),
    (scsi_wait_go cond wfs fuel s).2.scmdWrites = s.scmdWrites := by
  intro fuel
  induction fuel with
  | zero => intro s; rfl
  | succ n ih =>
    intro s
    rw [scsi_wait_go_succ]
    by_cases h : scsi_wait_sat cond wfs (auxAt s 0) = true
    · rw [if_pos h, get_wdc_reg_writes]
    · simp only [Bool.not_eq_true] at h
      rw [if_neg (by simp [h]), ih, get_wdc_reg_writes]

lemma scsi_wait_go_fail (cond wfs : Nat) : ∀ (fuel : Nat) (s : M),
    (scsi_wait_go cond wfs fuel s).2.failReports = s.failReports := by
  intro fuel
  induction fuel with
  | zero => intro s; rfl
  | succ n ih =>
    intro s
    rw [scsi_wait_go_succ]
    by_cases h : scsi_wait_sat cond wfs (auxAt s 0) = true
    · rw [if_pos h, get_wdc_reg_fail]
    · simp only [Bool.not_eq_true] at h
      rw [if_neg (by simp [h]), ih, get_wdc_reg_fail]

lemma scsi_wait_step (cond wfs : Nat) (s : M)
    (h : scsi_wait_sat cond wfs (auxAt s 0) = true) :
    scsi_wait cond wfs s = (auxAt s 0, (get_wdc_reg 0x1f s).2) := by
  have e : (25000 : Nat) = 24999 + 1 := rfl
  rw [scsi_wait, e, scsi_wait_go_succ, if_pos h]

lemma interrupts_disable_reads (s : M) :
    (interrupts_disable s).scmdReads = s.scmdReads := rfl

lemma interrupts_disable_sasr (s : M) :
    (interrupts_disable s).sasr = s.sasr := rfl

lemma interrupts_disable_writes (s : M) :
    (interrupts_disable s).scmdWrites = s.scmdWrites := rfl

lemma interrupts_disable_fail (s : M) :
    (interrupts_disable s).failReports = s.failReports := rfl

lemma interrupts_enable_reads (s : M) :
    (interrupts_enable s).scmdReads = s.scmdReads := rfl

lemma interrupts_enable_sasr (s : M) :
    (interrupts_enable s).sasr = s.sasr := rfl

lemma interrupts_enable_writes (s : M) :
    (interrupts_enable s).scmdWrites = s.scmdWrites := rfl

lemma interrupts_enable_fail (s : M) :
    (interrupts_enable s).failReports = s.failReports := rfl

lemma auxAt_lt (s : M) (k : Nat) : auxAt s k < 256 :=
  Nat.mod_lt _ (by norm_num)

lemma scsi_wait_cip_pinned (s : M) (h : auxAt s 0 &&& 0x10 = 0) :
    scsi_wait_cip s = (auxAt s 0, (get_wdc_reg 0x1f s).2) := by
  rw [scsi_wait_cip]
  exact scsi_wait_step 0x10 0 s (by simp [scsi_wait_sat, h])

/-! ### C2: the byte order of set_wdc_reg24 -/

/-- C2: the claim says set_wdc_reg24 writes the three bytes of the 24-bit
value most-significant first (bits 23-16, then 15-8, then 7-0).  The code
instead shifts by 24, 18 and 0: for value 0x123456 it writes the bytes
0x00, 0x04, 0x56 instead of 0x12, 0x34, 0x56. -/
theorem set_wdc_reg24_byte_order :
    (set_wdc_reg24 0x12 0x123456 m0).scmdWrites =
      [(0x12, 0x00), (0x12, 0x04), (0x12, 0x56)] ∧
    [((0x12 : Nat), (0x123456 : Nat) >>> 16 % 256), (0x12, 0x123456 >>> 8 % 256),
      (0x12, 0x123456 % 256)] = [(0x12, 0x12), (0x12, 0x34), (0x12, 0x56)] ∧
    ((0x12 : Nat), (0x00 : Nat)) ≠ (0x12, 0x12) := by
  refine ⟨by decide, by decide, by decide⟩

/-! ### C5: the interrupt-nesting counter leak in calc_wdc_clock -/

/-- C5: on the early-error path where the SCSI status reads 0xff right
after the soft reset, calc_wdc_clock returns 0 without executing
INTERRUPTS_ENABLE: started with nesting counter 0, it returns with the
counter at 1, so not every disable is matched by an enable. -/
theorem calc_wdc_clock_irq_leak :
    calc_leak_state.irq = 0 ∧
    (calc_wdc_clock calc_leak_state).1 = 0 ∧
    (calc_wdc_clock calc_leak_state).2.irq = 1 := by
  refine ⟨rfl, by decide, by decide⟩

/-! ### C8: a second scsi_save_regs is neither rejected nor a no-op -/

/-- C8: the claim says a second scsi_save_regs without an intervening
restore is rejected or a no-op.  In fact the second call re-reads the
masked registers, overwriting the snapshot (register 0 saved as 1 becomes
6), and raises the outstanding-save counter to 2. -/
theorem scsi_save_regs_double_overwrite :
    (scsi_save_regs save_state).wdcSaved = 1 ∧
    (scsi_save_regs save_state).wdcStore.getD 0 0 = 1 ∧
    (scsi_save_regs (scsi_save_regs save_state)).wdcSaved = 2 ∧
    (scsi_save_regs (scsi_save_regs save_state)).wdcStore.getD 0 0 = 6 := by
  refine ⟨by decide, by decide, by decide, by decide⟩

/-! ### C10: the CIA timer rollover compensation -/

/-- C10: in cia_ticks, when the down-counting high byte is unchanged
between the two reads the low byte is used as is, and when it rolled over
by one the expression `lo | (uint8_t)(hi2 - hi1)` forces the low byte to
0xff, so the result never pairs the new high byte with a stale low byte. -/
theorem cia_ticks_rollover (hi1 lo hi2 : Nat)
    (h1 : hi1 < 256) (h2 : lo < 256) (h3 : hi2 < 256) :
    (hi2 = hi1 →
      lo ||| ((hi2 + 256 - hi1) % 256) = lo ∧
      cia_ticks_calc hi1 lo hi2 = lo ||| (hi2 <<< 8)) ∧
    (hi2 = (hi1 + 255) % 256 →
      lo ||| ((hi2 + 256 - hi1) % 256) = 0xff ∧
      cia_ticks_calc hi1 lo hi2 = 0xff ||| (hi2 <<< 8)) := by
  constructor
  · intro h
    subst h
    have e : (hi2 + 256 - hi2) % 256 = 0 := by omega
    rw [cia_ticks_calc, e]
    simp
  · intro h
    have e : (hi2 + 256 - hi1) % 256 = 255 := by omega
    have e2 : lo ||| 255 = 255 := lor_byte_255 ⟨lo, h2⟩
    constructor
    · rw [e]; exact e2
    · rw [cia_ticks_calc, e, e2]

/-- Witness for C10 at hi1 = 3, lo = 0x40, hi2 = 2 (a rollover). -/
theorem cia_ticks_rollover_witness :
    (3 : Nat) < 256 ∧ (0x40 : Nat) < 256 ∧ (2 : Nat) < 256 ∧
    ((2 : Nat) = (3 + 255) % 256 →
      (0x40 : Nat) ||| ((2 + 256 - 3) % 256) = 0xff ∧
      cia_ticks_calc 3 0x40 2 = 0xff ||| (2 <<< 8)) :=
  ⟨by decide, by decide, by decide,
    (cia_ticks_rollover 3 0x40 2 (by decide) (by decide) (by decide)).2⟩

lemma get_wdc_reg_extended_sasr (reg : Nat) (s : M) :
    (get_wdc_reg_extended reg s).2.sasr = s.sasr % 256 := by
  by_cases hr : reg < 0x40
  · rw [get_wdc_reg_extended, if_pos hr, get_wdc_reg_sasr]
  · rw [get_wdc_reg_extended, if_neg hr]
    dsimp only
    split
    all_goals
      simp only [interrupts_enable_sasr, set_wdc_reg_sasr, get_wdc_reg_sasr,
        scsi_wait_cip, scsi_wait_sasr, interrupts_disable_sasr]
    all_goals omega

lemma set_wdc_reg_extended_sasr (reg v : Nat) (s : M) :
    (set_wdc_reg_extended reg v s).sasr = s.sasr % 256 := by
  by_cases hr : reg < 0x40
  · rw [set_wdc_reg_extended, if_pos hr, set_wdc_reg_sasr]
  · rw [set_wdc_reg_extended, if_neg hr]
    dsimp only
    split
    all_goals
      simp only [interrupts_enable_sasr, set_wdc_reg_sasr, get_wdc_reg_sasr,
        scsi_wait_cip, scsi_wait_sasr, interrupts_disable_sasr]
    all_goals omega

/-! ### C1: the indirect-window index (SASR) is preserved -/

/-- C1: every indirect access primitive - get_wdc_reg, set_wdc_reg,
set_wdc_reg24 for ordinals 0x00-0x1F, and the extended-register
get/set for ordinals ≥ 0x40 - leaves the SASR index register with the
value it held before the operation started, for every hardware response. -/
theorem wdc_index_restored (s : M) (reg v : Nat) (hs : s.sasr < 256) :
    (get_wdc_reg reg s).2.sasr = s.sasr ∧
    (set_wdc_reg reg v s).sasr = s.sasr ∧
    (set_wdc_reg24 reg v s).sasr = s.sasr ∧
    (get_wdc_reg_extended reg s).2.sasr = s.sasr ∧
    (set_wdc_reg_extended reg v s).sasr = s.sasr := by
  have e : s.sasr % 256 = s.sasr := Nat.mod_eq_of_lt hs
  exact ⟨by rw [get_wdc_reg_sasr, e], by rw [set_wdc_reg_sasr, e],
    by rw [set_wdc_reg24_sasr, e], by rw [get_wdc_reg_extended_sasr, e],
    by rw [set_wdc_reg_extended_sasr, e]⟩

/-- Witness for C1 at the extended ordinal 0x50 on a concrete state. -/
theorem wdc_index_restored_witness :
    ext_state.sasr < 256 ∧
    ((get_wdc_reg 0x07 ext_state).2.sasr = ext_state.sasr ∧
     (set_wdc_reg 0x07 0x9a ext_state).sasr = ext_state.sasr ∧
     (set_wdc_reg24 0x07 0x9a ext_state).sasr = ext_state.sasr ∧
     (get_wdc_reg_extended 0x07 ext_state).2.sasr = ext_state.sasr ∧
     (set_wdc_reg_extended 0x07 0x9a ext_state).sasr = ext_state.sasr) :=
  ⟨by decide, wdc_index_restored ext_state 0x07 0x9a (by decide)⟩

lemma scsi_wait_go_spec (cond wfs : Nat) : ∀ (fuel : Nat) (s : M),
    ((scsi_wait_go cond wfs fuel s).1 = 0x100 ∨
      ((scsi_wait_go cond wfs fuel s).1 ≤ 0xff ∧
        scsi_wait_sat cond wfs (scsi_wait_go cond wfs fuel s).1 = true)) ∧
    ((scsi_wait_go cond wfs fuel s).1 = 0x100 ↔
      ∀ k < fuel, scsi_wait_sat cond wfs (auxAt s k) = false) ∧
    (∃ n ≤ fuel, (scsi_wait_go cond wfs fuel s).2.scmdReads = s.scmdReads.drop n) := by
  intro fuel
  induction fuel with
  | zero =>
    intro s
    refine ⟨Or.inl rfl, ?_, ⟨0, Nat.le_refl 0, (List.drop_zero _).symm⟩⟩
    constructor
    · intro _ k hk; omega
    · intro _; rfl
  | succ n ih =>
    intro s
    rw [scsi_wait_go_succ]
    by_cases h : scsi_wait_sat cond wfs (auxAt s 0) = true
    · rw [if_pos h]
      have hlt : auxAt s 0 < 256 := auxAt_lt s 0
      refine ⟨Or.inr ⟨by omega, h⟩, ?_, ⟨1, by omega, get_wdc_reg_reads 0x1f s⟩⟩
      constructor
      · intro habs; omega
      · intro hall
        have := hall 0 (by omega)
        rw [h] at this
        exact absurd this (by simp)
    · simp only [Bool.not_eq_true] at h
      rw [if_neg (by simp [h])]
      obtain ⟨ih1, ih2, ih3⟩ := ih (get_wdc_reg 0x1f s).2
      have haux : ∀ k, auxAt (get_wdc_reg 0x1f s).2 k = auxAt s (k + 1) :=
        fun k => auxAt_of_drop s _ 1 k (get_wdc_reg_reads 0x1f s)
      refine ⟨ih1, ?_, ?_⟩
      · rw [ih2]
        constructor
        · intro hall k hk
          rcases Nat.eq_zero_or_pos k with hk0 | hkpos
          · rw [hk0]; exact h
          · have := hall (k - 1) (by omega)
            rw [haux, Nat.sub_add_cancel hkpos] at this
            exact this
        · intro hall k hk
          rw [haux]
          exact hall (k + 1) (by omega)
      · obtain ⟨m, hm, hdrop⟩ := ih3
        refine ⟨m + 1, by omega, ?_⟩
        rw [hdrop, get_wdc_reg_reads, drop_comp]

/-! ### C6: scsi_wait terminates in budget with a distinct sentinel -/

/-- C6: scsi_wait consumes at most 25000 status reads and returns either
an 8-bit auxiliary-status value (≤ 0xFF) satisfying the waited-for
condition, or the sentinel 0x100 - distinct from every 8-bit value -
exactly when no status observed during the 25000-iteration budget
satisfied the condition. -/
theorem scsi_wait_bounded_sentinel (cond wfs : Nat) (s : M) :
    ((scsi_wait cond wfs s).1 = 0x100 ∨
      ((scsi_wait cond wfs s).1 ≤ 0xff ∧
        scsi_wait_sat cond wfs (scsi_wait cond wfs s).1 = true)) ∧
    ((scsi_wait cond wfs s).1 = 0x100 ↔
      ∀ k < 25000, scsi_wait_sat cond wfs (auxAt s k) = false) ∧
    (∃ n ≤ 25000, (scsi_wait cond wfs s).2.scmdReads = s.scmdReads.drop n) :=
  scsi_wait_go_spec cond wfs 25000 s

/-! ### C3: classification behaviour of get_sdmac_version -/

lemma sdmac_probe_go_clean (resp : Nat → Nat) : ∀ (l : List Nat) (v : Nat),
    (∀ p ∈ l, ¬ sdmac_fail_obs resp p) →
    sdmac_probe_go resp l v =
      (if ∃ p ∈ l, sdmac_rev4_obs resp p then 4 else v, "") := by
  intro l
  induction l with
  | nil => intro v _; simp [sdmac_probe_go]
  | cons p rest ih =>
    intro v h
    have hp : ¬ sdmac_fail_obs resp p := h p (by simp)
    simp only [sdmac_fail_obs] at hp
    have hrest : ∀ q ∈ rest, ¬ sdmac_fail_obs resp q :=
      fun q hq => h q (by simp [hq])
    simp only [sdmac_probe_go]
    by_cases h1 : resp p % 4294967296 = sdmac_wtc_pattern p
    · rw [if_pos h1]
      by_cases h2 : sdmac_wtc_pattern p ≠ 0x00000000 ∧ sdmac_wtc_pattern p ≠ 0xffffffff
      · exact absurd (Or.inl ⟨h1, h2⟩) hp
      · rw [if_neg h2, ih v hrest]
        have hiff : (∃ q ∈ p :: rest, sdmac_rev4_obs resp q) ↔
            (∃ q ∈ rest, sdmac_rev4_obs resp q) := by
          constructor
          · rintro ⟨q, hq, hr4⟩
            rcases List.mem_cons.mp hq with rfl | hq'
            · simp only [sdmac_rev4_obs] at hr4
              exact absurd h1 hr4.1
            · exact ⟨q, hq', hr4⟩
          · rintro ⟨q, hq, hr4⟩
            exact ⟨q, List.mem_cons_of_mem _ hq, hr4⟩
        rw [if_congr hiff rfl rfl]
    · rw [if_neg h1]
      by_cases h2 : (resp p % 4294967296 ^^^ sdmac_wtc_pattern p) &&& 0xffffff = 0
      · rw [if_pos h2, ih v hrest]
        have hiff : (∃ q ∈ p :: rest, sdmac_rev4_obs resp q) ↔
            (∃ q ∈ rest, sdmac_rev4_obs resp q) := by
          constructor
          · rintro ⟨q, hq, hr4⟩
            rcases List.mem_cons.mp hq with rfl | hq'
            · simp only [sdmac_rev4_obs] at hr4
              exact absurd h2 hr4.2.1
            · exact ⟨q, hq', hr4⟩
          · rintro ⟨q, hq, hr4⟩
            exact ⟨q, List.mem_cons_of_mem _ hq, hr4⟩
        rw [if_congr hiff rfl rfl]
      · rw [if_neg h2]
        by_cases h3 : resp p % 4294967296 &&& 0x4 = 0
        · rw [if_pos h3]
          by_cases h4 : sdmac_wtc_pattern p &&& 0x4 ≠ 0
          · rw [if_pos h4, ih 4 hrest]
            have hrev : sdmac_rev4_obs resp p := by
              simp only [sdmac_rev4_obs]
              exact ⟨h1, h2, h3, h4⟩
            have hex : ∃ q ∈ p :: rest, sdmac_rev4_obs resp q :=
              ⟨p, by simp, hrev⟩
            rw [if_pos hex, ite_self]
          · rw [if_neg h4, ih v hrest]
            have hiff : (∃ q ∈ p :: rest, sdmac_rev4_obs resp q) ↔
                (∃ q ∈ rest, sdmac_rev4_obs resp q) := by
              constructor
              · rintro ⟨q, hq, hr4⟩
                rcases List.mem_cons.mp hq with rfl | hq'
                · simp only [sdmac_rev4_obs] at hr4
                  exact absurd hr4.2.2.2 h4
                · exact ⟨q, hq', hr4⟩
              · rintro ⟨q, hq, hr4⟩
                exact ⟨q, List.mem_cons_of_mem _ hq, hr4⟩
            rw [if_congr hiff rfl rfl]
        · exact absurd (Or.inr ⟨h1, h2, h3⟩) hp

lemma sdmac_probe_go_fail (resp : Nat → Nat) : ∀ (l : List Nat) (v : Nat),
    (∃ p ∈ l, sdmac_fail_obs resp p) →
    (sdmac_probe_go resp l v).1 = 0 ∧ (sdmac_probe_go resp l v).2 ≠ "" := by
  intro l
  induction l with
  | nil => intro v h; simp at h
  | cons p rest ih =>
    intro v h
    simp only [sdmac_probe_go]
    by_cases h1 : resp p % 4294967296 = sdmac_wtc_pattern p
    · rw [if_pos h1]
      by_cases h2 : sdmac_wtc_pattern p ≠ 0x00000000 ∧ sdmac_wtc_pattern p ≠ 0xffffffff
      · rw [if_pos h2]
        exact ⟨rfl, by decide⟩
      · rw [if_neg h2]
        apply ih
        obtain ⟨q, hq, hfail⟩ := h
        rcases List.mem_cons.mp hq with rfl | hq'
        · simp only [sdmac_fail_obs] at hfail
          rcases hfail with ⟨_, hW⟩ | ⟨hne, _⟩
          · exact absurd hW h2
          · exact absurd h1 hne
        · exact ⟨q, hq', hfail⟩
    · rw [if_neg h1]
      by_cases h2 : (resp p % 4294967296 ^^^ sdmac_wtc_pattern p) &&& 0xffffff = 0
      · rw [if_pos h2]
        apply ih
        obtain ⟨q, hq, hfail⟩ := h
        rcases List.mem_cons.mp hq with rfl | hq'
        · simp only [sdmac_fail_obs] at hfail
          rcases hfail with ⟨hEq, _⟩ | ⟨_, hlow, _⟩
          · exact absurd hEq h1
          · exact absurd h2 hlow
        · exact ⟨q, hq', hfail⟩
      · rw [if_neg h2]
        by_cases h3 : resp p % 4294967296 &&& 0x4 = 0
        · rw [if_pos h3]
          have hin : ∃ q ∈ rest, sdmac_fail_obs resp q := by
            obtain ⟨q, hq, hfail⟩ := h
            rcases List.mem_cons.mp hq with rfl | hq'
            · simp only [sdmac_fail_obs] at hfail
              rcases hfail with ⟨hEq, _⟩ | ⟨_, _, hbit⟩
              · exact absurd hEq h1
              · exact absurd h3 hbit
            · exact ⟨q, hq', hfail⟩
          by_cases h4 : sdmac_wtc_pattern p &&& 0x4 ≠ 0
          · rw [if_pos h4]; exact ih 4 hin
          · rw [if_neg h4]; exact ih v hin
        · rw [if_neg h3]
          exact ⟨rfl, by decide⟩

/-- C3 counterexample: the claim as stated says every probe pattern
reading back with its low 24 bits intact yields revision 2.  When the
hardware echoes every pattern back exactly (all low 24 bits intact), the
code instead returns 0 ("read-only register bits not read-only") at the
first mixed pattern. -/
theorem get_sdmac_version_echo_not_two :
    (∀ p, p < 6 →
      ((sdmac_wtc_pattern p ^^^ sdmac_wtc_pattern p) &&& 0xffffff = 0)) ∧
    get_sdmac_version 0 sdmac_wtc_pattern =
      (0, "read-only register bits not read-only") ∧
    (get_sdmac_version 0 sdmac_wtc_pattern).1 ≠ 2 := by
  refine ⟨fun p _ => by simp, by decide, by decide⟩

/-- C3 (amended): get_sdmac_version returns (0, "FIFO register test fail")
when FIFO-empty and FIFO-full are both set; otherwise it returns revision
2 when no pass yields a failing observation (an exact 32-bit echo of a
mixed pattern, or a low-24-bit mismatch with bit 2 reading 1) and no pass
yields the SDMAC-04 observation, revision 4 when no pass fails and some
pass shows bit 2 stuck at 0 under a low-24 mismatch, and 0 with a
nonempty recorded failure reason exactly when the FIFO bits are
inconsistent or some pass fails; it never returns any value other than
0, 2 or 4. -/
theorem get_sdmac_version_classification (istr : Nat) (resp : Nat → Nat) :
    ((istr &&& 0x01 ≠ 0 ∧ istr &&& 0x02 ≠ 0) →
      get_sdmac_version istr resp = (0, "FIFO register test fail")) ∧
    (¬(istr &&& 0x01 ≠ 0 ∧ istr &&& 0x02 ≠ 0) →
      ((∀ p < 6, ¬ sdmac_fail_obs resp p) →
        ((∀ p < 6, ¬ sdmac_rev4_obs resp p) →
          get_sdmac_version istr resp = (2, "")) ∧
        ((∃ p, p < 6 ∧ sdmac_rev4_obs resp p) →
          get_sdmac_version istr resp = (4, ""))) ∧
      ((get_sdmac_version istr resp).1 = 0 ↔
        ∃ p, p < 6 ∧ sdmac_fail_obs resp p)) ∧
    ((get_sdmac_version istr resp).1 = 0 → (get_sdmac_version istr resp).2 ≠ "") ∧
    ((get_sdmac_version istr resp).1 = 0 ∨ (get_sdmac_version istr resp).1 = 2 ∨
      (get_sdmac_version istr resp).1 = 4) := by
  have hmem : ∀ (P : Nat → Prop), (∃ p ∈ List.range 6, P p) ↔ (∃ p, p < 6 ∧ P p) := by
    intro P
    constructor
    · rintro ⟨p, hp, hP⟩; exact ⟨p, List.mem_range.mp hp, hP⟩
    · rintro ⟨p, hp, hP⟩; exact ⟨p, List.mem_range.mpr hp, hP⟩
  refine ⟨?_, ?_, ?_, ?_⟩
  · intro h
    rw [get_sdmac_version, if_pos h]
  · intro h
    refine ⟨?_, ?_⟩
    · intro hnf
      have hnf' : ∀ p ∈ List.range 6, ¬ sdmac_fail_obs resp p :=
        fun p hp => hnf p (List.mem_range.mp hp)
      constructor
      · intro hnr
        rw [get_sdmac_version, if_neg h, sdmac_probe_go_clean resp _ 2 hnf']
        rw [if_neg]
        intro hex
        obtain ⟨p, hp, hrev⟩ := (hmem _).mp hex
        exact hnr p hp hrev
      · intro hex
        rw [get_sdmac_version, if_neg h, sdmac_probe_go_clean resp _ 2 hnf']
        rw [if_pos ((hmem _).mpr hex)]
    · by_cases hfail : ∃ p, p < 6 ∧ sdmac_fail_obs resp p
      · have := sdmac_probe_go_fail resp (List.range 6) 2 ((hmem _).mpr hfail)
        rw [get_sdmac_version, if_neg h]
        exact ⟨fun _ => hfail, fun _ => this.1⟩
      · have hnf' : ∀ p ∈ List.range 6, ¬ sdmac_fail_obs resp p := by
          intro p hp hobs
          exact hfail ⟨p, List.mem_range.mp hp, hobs⟩
        rw [get_sdmac_version, if_neg h, sdmac_probe_go_clean resp _ 2 hnf']
        constructor
        · intro h0
          by_cases hex : ∃ p ∈ List.range 6, sdmac_rev4_obs resp p
          · rw [if_pos hex] at h0; simp at h0
          · rw [if_neg hex] at h0; simp at h0
        · intro hex; exact absurd hex hfail
  · by_cases h : istr &&& 0x01 ≠ 0 ∧ istr &&& 0x02 ≠ 0
    · rw [get_sdmac_version, if_pos h]
      intro _; decide
    · rw [get_sdmac_version, if_neg h]
      by_cases hfail : ∃ p ∈ List.range 6, sdmac_fail_obs resp p
      · exact fun _ => (sdmac_probe_go_fail resp _ 2 hfail).2
      · have hnf' : ∀ p ∈ List.range 6, ¬ sdmac_fail_obs resp p := by
          intro p hp hobs
          exact hfail ⟨p, hp, hobs⟩
        rw [sdmac_probe_go_clean resp _ 2 hnf']
        by_cases hex : ∃ p ∈ List.range 6, sdmac_rev4_obs resp p
        · rw [if_pos hex]; intro h0; simp at h0
        · rw [if_neg hex]; intro h0; simp at h0
  · by_cases h : istr &&& 0x01 ≠ 0 ∧ istr &&& 0x02 ≠ 0
    · rw [get_sdmac_version, if_pos h]; exact Or.inl rfl
    · rw [get_sdmac_version, if_neg h]
      by_cases hfail : ∃ p ∈ List.range 6, sdmac_fail_obs resp p
      · exact Or.inl (sdmac_probe_go_fail resp _ 2 hfail).1
      · have hnf' : ∀ p ∈ List.range 6, ¬ sdmac_fail_obs resp p := by
          intro p hp hobs
          exact hfail ⟨p, hp, hobs⟩
        rw [sdmac_probe_go_clean resp _ 2 hnf']
        by_cases hex : ∃ p ∈ List.range 6, sdmac_rev4_obs resp p
        · rw [if_pos hex]; exact Or.inr (Or.inr rfl)
        · rw [if_neg hex]; exact Or.inr (Or.inl rfl)

/-- Witness for C3 on an SDMAC-04-like response: no pass fails, pass 1
shows bit 2 stuck low, and the classification returns (4, ""). -/
theorem get_sdmac_version_classification_witness :
    get_sdmac_version 0 sdmac_resp_rev4 = (4, "") :=
  (((get_sdmac_version_classification 0 sdmac_resp_rev4).2.1
      (by decide)).1 (by decide)).2 ⟨1, by decide, by decide⟩

/-! ### C7: extended register access is best-effort on status mismatch -/

set_option maxHeartbeats 1000000 in
/-- C7: for an extended ordinal (not < 0x40), when the two bounded waits
complete on their first status read and the post-command status byte
differs from the expected command echo (0x54 for get, 0x55 for set), both
extended accesses still complete: the mismatch is only recorded as a fail
report, the value read from CDB2 is still returned, and the final two data
writes restore CDB1 and CDB2 to the contents read at the start. -/
theorem wdc_reg_extended_best_effort (s : M) (reg v : Nat)
    (hr : ¬ reg < 0x40)
    (h0 : auxAt s 0 &&& 0x10 = 0) (h4 : auxAt s 4 &&& 0x10 = 0)
    (hg : auxAt s 5 ≠ 0x54) (hx : auxAt s 5 ≠ 0x55) :
    (get_wdc_reg_extended reg s).1 = auxAt s 6 ∧
    (get_wdc_reg_extended reg s).2.scmdWrites =
      s.scmdWrites ++ [(3, reg % 256), (0x18, 0x44), (3, auxAt s 1), (4, auxAt s 2)] ∧
    (get_wdc_reg_extended reg s).2.failReports = s.failReports ++ [auxAt s 5] ∧
    (set_wdc_reg_extended reg v s).scmdWrites =
      s.scmdWrites ++
        [(3, reg % 256), (4, v % 256), (0x18, 0x45), (3, auxAt s 1), (4, auxAt s 2)] ∧
    (set_wdc_reg_extended reg v s).failReports = s.failReports ++ [auxAt s 5] := by
  have e84 : ((0x44 : Nat) ||| 0x10) = 0x54 := by decide
  have e85 : ((0x45 : Nat) ||| 0x10) = 0x55 := by decide
  rw [get_wdc_reg_extended, set_wdc_reg_extended, if_neg hr, if_neg hr]
  dsimp only
  rw [e84, e85]
  have hD0 : auxAt (interrupts_disable s) 0 &&& 0x10 = 0 := h0
  rw [scsi_wait_cip_pinned (interrupts_disable s) hD0]
  dsimp only
  set A := (get_wdc_reg 0x1f (interrupts_disable s)).2 with hA
  have hAr : A.scmdReads = s.scmdReads.drop 1 := by
    rw [hA, get_wdc_reg_reads, interrupts_disable_reads]
  have hAw : A.scmdWrites = s.scmdWrites := by
    rw [hA, get_wdc_reg_writes, interrupts_disable_writes]
  have hAf : A.failReports = s.failReports := by
    rw [hA, get_wdc_reg_fail, interrupts_disable_fail]
  set B := (get_wdc_reg 0x03 A).2 with hB
  have hBr : B.scmdReads = s.scmdReads.drop 2 := by
    rw [hB, get_wdc_reg_reads, hAr, drop_comp]
  have hBw : B.scmdWrites = s.scmdWrites := by rw [hB, get_wdc_reg_writes, hAw]
  have hBf : B.failReports = s.failReports := by rw [hB, get_wdc_reg_fail, hAf]
  set C := (get_wdc_reg 0x04 B).2 with hC
  have hCr : C.scmdReads = s.scmdReads.drop 3 := by
    rw [hC, get_wdc_reg_reads, hBr, drop_comp]
  have hCw : C.scmdWrites = s.scmdWrites := by rw [hC, get_wdc_reg_writes, hBw]
  have hCf : C.failReports = s.failReports := by rw [hC, get_wdc_reg_fail, hBf]
  set D1 := set_wdc_reg 0x03 reg C with hD1
  have hD1r : D1.scmdReads = s.scmdReads.drop 3 := by rw [hD1, set_wdc_reg_reads, hCr]
  have hD1w : D1.scmdWrites = s.scmdWrites ++ [(3, reg % 256)] := by
    rw [hD1, set_wdc_reg_writes, hCw]
  have hD1f : D1.failReports = s.failReports := by rw [hD1, set_wdc_reg_fail, hCf]
  have hreg3 : (get_wdc_reg 0x03 A).1 = auxAt s 1 := by
    rw [get_wdc_reg_fst, auxAt_of_drop s A 1 0 hAr]
  have hreg4 : (get_wdc_reg 0x04 B).1 = auxAt s 2 := by
    rw [get_wdc_reg_fst, auxAt_of_drop s B 2 0 hBr]
  rw [hreg3, hreg4]
  -- get path
  set E := (get_wdc_reg 0x17 D1).2 with hE
  have hEr : E.scmdReads = s.scmdReads.drop 4 := by
    rw [hE, get_wdc_reg_reads, hD1r, drop_comp]
  have hEw : E.scmdWrites = s.scmdWrites ++ [(3, reg % 256)] := by
    rw [hE, get_wdc_reg_writes, hD1w]
  have hEf : E.failReports = s.failReports := by rw [hE, get_wdc_reg_fail, hD1f]
  set F := set_wdc_reg 0x18 0x44 E with hF
  have hFr : F.scmdReads = s.scmdReads.drop 4 := by rw [hF, set_wdc_reg_reads, hEr]
  have hFw : F.scmdWrites = s.scmdWrites ++ [(3, reg % 256), (0x18, 0x44)] := by
    rw [hF, set_wdc_reg_writes, hEw]; simp
  have hFf : F.failReports = s.failReports := by rw [hF, set_wdc_reg_fail, hEf]
  have hF0 : auxAt F 0 &&& 0x10 = 0 := by
    rw [auxAt_of_drop s F 4 0 hFr]; exact h4
  rw [scsi_wait_cip_pinned F hF0]
  dsimp only
  set G := (get_wdc_reg 0x1f F).2 with hG
  have hGr : G.scmdReads = s.scmdReads.drop 5 := by
    rw [hG, get_wdc_reg_reads, hFr, drop_comp]
  have hGw : G.scmdWrites = s.scmdWrites ++ [(3, reg % 256), (0x18, 0x44)] := by
    rw [hG, get_wdc_reg_writes, hFw]
  have hGf : G.failReports = s.failReports := by rw [hG, get_wdc_reg_fail, hFf]
  have hstat : (get_wdc_reg 0x17 G).1 = auxAt s 5 := by
    rw [get_wdc_reg_fst, auxAt_of_drop s G 5 0 hGr]
  rw [hstat]
  set H := (get_wdc_reg 0x17 G).2 with hH
  have hHr : H.scmdReads = s.scmdReads.drop 6 := by
    rw [hH, get_wdc_reg_reads, hGr, drop_comp]
  have hHw : H.scmdWrites = s.scmdWrites ++ [(3, reg % 256), (0x18, 0x44)] := by
    rw [hH, get_wdc_reg_writes, hGw]
  have hHf : H.failReports = s.failReports := by rw [hH, get_wdc_reg_fail, hGf]
  have hval : (get_wdc_reg 0x04 H).1 = auxAt s 6 := by
    rw [get_wdc_reg_fst, auxAt_of_drop s H 6 0 hHr]
  rw [hval]
  set I1 := (get_wdc_reg 0x04 H).2 with hI1
  have hI1w : I1.scmdWrites = s.scmdWrites ++ [(3, reg % 256), (0x18, 0x44)] := by
    rw [hI1, get_wdc_reg_writes, hHw]
  have hI1f : I1.failReports = s.failReports := by rw [hI1, get_wdc_reg_fail, hHf]
  set J := set_wdc_reg 0x03 (auxAt s 1) I1 with hJ
  have hJw : J.scmdWrites =
      s.scmdWrites ++ [(3, reg % 256), (0x18, 0x44), (3, auxAt s 1)] := by
    rw [hJ, set_wdc_reg_writes, hI1w, Nat.mod_eq_of_lt (auxAt_lt s 1)]
    simp
  have hJf : J.failReports = s.failReports := by rw [hJ, set_wdc_reg_fail, hI1f]
  set K := set_wdc_reg 0x04 (auxAt s 2) J with hK
  have hKw : K.scmdWrites =
      s.scmdWrites ++ [(3, reg % 256), (0x18, 0x44), (3, auxAt s 1), (4, auxAt s 2)] := by
    rw [hK, set_wdc_reg_writes, hJw, Nat.mod_eq_of_lt (auxAt_lt s 2)]
    simp
  have hKf : K.failReports = s.failReports := by rw [hK, set_wdc_reg_fail, hJf]
  rw [if_pos hg]
  -- set path
  set D2 := set_wdc_reg 0x04 v D1 with hD2
  have hD2r : D2.scmdReads = s.scmdReads.drop 3 := by rw [hD2, set_wdc_reg_reads, hD1r]
  have hD2w : D2.scmdWrites = s.scmdWrites ++ [(3, reg % 256), (4, v % 256)] := by
    rw [hD2, set_wdc_reg_writes, hD1w]; simp
  have hD2f : D2.failReports = s.failReports := by rw [hD2, set_wdc_reg_fail, hD1f]
  set E2 := (get_wdc_reg 0x17 D2).2 with hE2
  have hE2r : E2.scmdReads = s.scmdReads.drop 4 := by
    rw [hE2, get_wdc_reg_reads, hD2r, drop_comp]
  have hE2w : E2.scmdWrites = s.scmdWrites ++ [(3, reg % 256), (4, v % 256)] := by
    rw [hE2, get_wdc_reg_writes, hD2w]
  have hE2f : E2.failReports = s.failReports := by rw [hE2, get_wdc_reg_fail, hD2f]
  set F2 := set_wdc_reg 0x18 0x45 E2 with hF2
  have hF2r : F2.scmdReads = s.scmdReads.drop 4 := by rw [hF2, set_wdc_reg_reads, hE2r]
  have hF2w : F2.scmdWrites =
      s.scmdWrites ++ [(3, reg % 256), (4, v % 256), (0x18, 0x45)] := by
    rw [hF2, set_wdc_reg_writes, hE2w]; simp
  have hF2f : F2.failReports = s.failReports := by rw [hF2, set_wdc_reg_fail, hE2f]
  have hF20 : auxAt F2 0 &&& 0x10 = 0 := by
    rw [auxAt_of_drop s F2 4 0 hF2r]; exact h4
  rw [scsi_wait_cip_pinned F2 hF20]
  dsimp only
  set G2 := (get_wdc_reg 0x1f F2).2 with hG2
  have hG2r : G2.scmdReads = s.scmdReads.drop 5 := by
    rw [hG2, get_wdc_reg_reads, hF2r, drop_comp]
  have hG2w : G2.scmdWrites =
      s.scmdWrites ++ [(3, reg % 256), (4, v % 256), (0x18, 0x45)] := by
    rw [hG2, get_wdc_reg_writes, hF2w]
  have hG2f : G2.failReports = s.failReports := by rw [hG2, get_wdc_reg_fail, hF2f]
  have hstat2 : (get_wdc_reg 0x17 G2).1 = auxAt s 5 := by
    rw [get_wdc_reg_fst, auxAt_of_drop s G2 5 0 hG2r]
  rw [hstat2]
  set H2 := (get_wdc_reg 0x17 G2).2 with hH2
  have hH2w : H2.scmdWrites =
      s.scmdWrites ++ [(3, reg % 256), (4, v % 256), (0x18, 0x45)] := by
    rw [hH2, get_wdc_reg_writes, hG2w]
  have hH2f : H2.failReports = s.failReports := by rw [hH2, get_wdc_reg_fail, hG2f]
  set J2 := set_wdc_reg 0x03 (auxAt s 1) H2 with hJ2
  have hJ2w : J2.scmdWrites =
      s.scmdWrites ++ [(3, reg % 256), (4, v % 256), (0x18, 0x45), (3, auxAt s 1)] := by
    rw [hJ2, set_wdc_reg_writes, hH2w, Nat.mod_eq_of_lt (auxAt_lt s 1)]
    simp
  have hJ2f : J2.failReports = s.failReports := by rw [hJ2, set_wdc_reg_fail, hH2f]
  set K2 := set_wdc_reg 0x04 (auxAt s 2) J2 with hK2
  have hK2w : K2.scmdWrites =
      s.scmdWrites ++
        [(3, reg % 256), (4, v % 256), (0x18, 0x45), (3, auxAt s 1), (4, auxAt s 2)] := by
    rw [hK2, set_wdc_reg_writes, hJ2w, Nat.mod_eq_of_lt (auxAt_lt s 2)]
    simp
  have hK2f : K2.failReports = s.failReports := by rw [hK2, set_wdc_reg_fail, hJ2f]
  rw [if_pos hx]
  refine ⟨rfl, ?_, ?_, ?_, ?_⟩
  · dsimp only
    rw [interrupts_enable_writes, hKw]
  · dsimp only
    rw [interrupts_enable_fail, hKf]
  · dsimp only
    rw [interrupts_enable_writes, hK2w]
  · dsimp only
    rw [interrupts_enable_fail, hK2f]

/-- Witness for C7 on a concrete hardware trace with status 0x99. -/
theorem wdc_reg_extended_best_effort_witness :
    (get_wdc_reg_extended 0x50 ext_state).1 = 0x5d ∧
    (get_wdc_reg_extended 0x50 ext_state).2.failReports = [0x99] ∧
    (set_wdc_reg_extended 0x50 0x77 ext_state).scmdWrites =
      [(3, 0x50), (4, 0x77), (0x18, 0x45), (3, 0x21), (4, 0x22)] := by
  have h := wdc_reg_extended_best_effort ext_state 0x50 0x77 (by decide)
    (by decide) (by decide) (by decide) (by decide)
  exact ⟨h.1.trans (by decide), (h.2.2.1).trans (by decide),
    (h.2.2.2.1).trans (by decide)⟩

/-! ### C9: select timeout means no transfer is attempted -/

lemma probe_tail_present (p : Bool) (s : M) : (probe_tail p s).1.present = p := by
  rw [probe_tail]
  dsimp only
  split
  · rfl
  · split
    · rfl
    · split
      · rfl
      · rfl

lemma probe_post_42 (xin xout : Nat → M → Int × M) (target : Nat) (s : M) :
    probe_post xin xout target 0x42 s =
      probe_tail false (set_wdc_reg 0x16 0 (get_wdc_reg 0x17 s).2) := by
  rw [probe_post]
  dsimp only
  rw [if_neg (by decide), if_pos rfl]

/-- C9: in a probe_scsi iteration for any candidate target 0-6, when the
select step returns the select-timeout status 0x42, the iteration result
is the same for every choice of transfer-in/transfer-out routines (so
neither scsi_transfer_in nor scsi_transfer_out is invoked before the probe
moves on), and the target is recorded as not present. -/
theorem probe_select_timeout_no_transfer
    (xin xout xin2 xout2 : Nat → M → Int × M) (target : Nat) (s : M)
    (ht : target < 7)
    (hpre : (probe_pre s).1 = false)
    (hsel : (scsi_select target (probe_pre s).2).1 = 0x42) :
    probe_scsi_target xin xout target s = probe_scsi_target xin2 xout2 target s ∧
    (probe_scsi_target xin xout target s).1.present = false := by
  have key : ∀ (a b : Nat → M → Int × M),
      probe_scsi_target a b target s =
        probe_post a b target 0x42 (scsi_select target (probe_pre s).2).2 := by
    intro a b
    rw [probe_scsi_target]
    dsimp only
    rw [hpre, if_neg (by simp), hsel]
  constructor
  · rw [key xin xout, key xin2 xout2, probe_post_42, probe_post_42]
  · rw [key xin xout, probe_post_42, probe_tail_present]

/-- Witness for C9: a hardware trace in which select on target 5 returns
the select-timeout status 0x42. -/
theorem probe_select_timeout_no_transfer_witness :
    (probe_pre probe_to_state).1 = false ∧
    (scsi_select 5 (probe_pre probe_to_state).2).1 = 0x42 ∧
    probe_scsi_target (fun _ s => (1, s)) (fun _ s => (1, s)) 5 probe_to_state =
      probe_scsi_target (fun _ s => (-1, s)) (fun _ s => (0, s)) 5 probe_to_state ∧
    (probe_scsi_target (fun _ s => (1, s)) (fun _ s => (1, s)) 5
        probe_to_state).1.present = false := by
  have h := probe_select_timeout_no_transfer (fun _ s => (1, s)) (fun _ s => (1, s))
    (fun _ s => (-1, s)) (fun _ s => (0, s)) 5 probe_to_state (by decide)
    (by decide) (by decide)
  exact ⟨by decide, by decide, h.1, h.2⟩

/-! ### Frame and projection lemmas for calc_wdc_clock -/

lemma interrupts_disable_istr (s : M) : (interrupts_disable s).istrReads = s.istrReads := rfl

lemma interrupts_disable_cia (s : M) : (interrupts_disable s).ciaReads = s.ciaReads := rfl

lemma interrupts_disable_level (s : M) : (interrupts_disable s).wdLevel = s.wdLevel := rfl

lemma interrupts_disable_efreq (s : M) : (interrupts_disable s).efreq = s.efreq := rfl

lemma interrupts_enable_istr (s : M) : (interrupts_enable s).istrReads = s.istrReads := rfl

lemma interrupts_enable_cia (s : M) : (interrupts_enable s).ciaReads = s.ciaReads := rfl

lemma interrupts_enable_level (s : M) : (interrupts_enable s).wdLevel = s.wdLevel := rfl

lemma interrupts_enable_efreq (s : M) : (interrupts_enable s).efreq = s.efreq := rfl

lemma scsi_wait_go_istr (cond wfs : Nat) : ∀ (fuel : Nat) (s : M),
    (scsi_wait_go cond wfs fuel s).2.istrReads = s.istrReads := by
  intro fuel
  induction fuel with
  | zero => intro s; rfl
  | succ n ih =>
    intro s
    rw [scsi_wait_go_succ]
    by_cases h : scsi_wait_sat cond wfs (auxAt s 0) = true
    · rw [if_pos h, get_wdc_reg_istr]
    · simp only [Bool.not_eq_true] at h
      rw [if_neg (by simp [h]), ih, get_wdc_reg_istr]

lemma scsi_wait_go_cia (cond wfs : Nat) : ∀ (fuel : Nat) (s : M),
    (scsi_wait_go cond wfs fuel s).2.ciaReads = s.ciaReads := by
  intro fuel
  induction fuel with
  | zero => intro s; rfl
  | succ n ih =>
    intro s
    rw [scsi_wait_go_succ]
    by_cases h : scsi_wait_sat cond wfs (auxAt s 0) = true
    · rw [if_pos h, get_wdc_reg_cia]
    · simp only [Bool.not_eq_true] at h
      rw [if_neg (by simp [h]), ih, get_wdc_reg_cia]

lemma scsi_wait_go_level (cond wfs : Nat) : ∀ (fuel : Nat) (s : M),
    (scsi_wait_go cond wfs fuel s).2.wdLevel = s.wdLevel := by
  intro fuel
  induction fuel with
  | zero => intro s; rfl
  | succ n ih =>
    intro s
    rw [scsi_wait_go_succ]
    by_cases h : scsi_wait_sat cond wfs (auxAt s 0) = true
    · rw [if_pos h, get_wdc_reg_level]
    · simp only [Bool.not_eq_true] at h
      rw [if_neg (by simp [h]), ih, get_wdc_reg_level]

lemma scsi_wait_go_efreq (cond wfs : Nat) : ∀ (fuel : Nat) (s : M),
    (scsi_wait_go cond wfs fuel s).2.efreq = s.efreq := by
  intro fuel
  induction fuel with
  | zero => intro s; rfl
  | succ n ih =>
    intro s
    rw [scsi_wait_go_succ]
    by_cases h : scsi_wait_sat cond wfs (auxAt s 0) = true
    · rw [if_pos h, get_wdc_reg_efreq]
    · simp only [Bool.not_eq_true] at h
      rw [if_neg (by simp [h]), ih, get_wdc_reg_efreq]

lemma scsi_wait_istr (cond wfs : Nat) (s : M) :
    (scsi_wait cond wfs s).2.istrReads = s.istrReads :=
  scsi_wait_go_istr cond wfs 25000 s

lemma scsi_wait_cia (cond wfs : Nat) (s : M) :
    (scsi_wait cond wfs s).2.ciaReads = s.ciaReads :=
  scsi_wait_go_cia cond wfs 25000 s

lemma scsi_wait_level (cond wfs : Nat) (s : M) :
    (scsi_wait cond wfs s).2.wdLevel = s.wdLevel :=
  scsi_wait_go_level cond wfs 25000 s

lemma scsi_wait_efreq (cond wfs : Nat) (s : M) :
    (scsi_wait cond wfs s).2.efreq = s.efreq :=
  scsi_wait_go_efreq cond wfs 25000 s

lemma cia_ticks_fst (s : M) :
    (cia_ticks s).1 = cia_ticks_calc (ciaAt s 0) (ciaAt s 1) (ciaAt s 2) := by
  simp only [cia_ticks, cia_read, ciaAt, tail_eq_drop, drop_comp, List.drop_zero]

lemma cia_ticks_cia (s : M) : (cia_ticks s).2.ciaReads = s.ciaReads.drop 3 := by
  simp only [cia_ticks, cia_read, tail_eq_drop, drop_comp]

lemma cia_ticks_reads (s : M) : (cia_ticks s).2.scmdReads = s.scmdReads := rfl

lemma cia_ticks_istr (s : M) : (cia_ticks s).2.istrReads = s.istrReads := rfl

lemma cia_ticks_level (s : M) : (cia_ticks s).2.wdLevel = s.wdLevel := rfl

lemma cia_ticks_efreq (s : M) : (cia_ticks s).2.efreq = s.efreq := rfl

lemma ciaAt_of_drop (s s' : M) (n k : Nat)
    (h : s'.ciaReads = s.ciaReads.drop n) : ciaAt s' k = ciaAt s (k + n) := by
  rw [ciaAt, ciaAt, h, drop_comp]

lemma istrAt_congr (s s' : M) (k : Nat)
    (h : s'.istrReads = s.istrReads) : istrAt s' k = istrAt s k := by
  rw [istrAt, istrAt, h]

lemma istr_read_fst (s : M) : (istr_read s).1 = istrAt s 0 := rfl

lemma istr_read_istr (s : M) : (istr_read s).2.istrReads = s.istrReads.drop 1 := by
  rw [← tail_eq_drop]; rfl

lemma istr_read_cia (s : M) : (istr_read s).2.ciaReads = s.ciaReads := rfl

lemma istr_read_level (s : M) : (istr_read s).2.wdLevel = s.wdLevel := rfl

lemma istr_read_efreq (s : M) : (istr_read s).2.efreq = s.efreq := rfl

lemma calc_wdc_poll_succ (c : Nat) (s : M) :
    calc_wdc_poll (c + 1) s =
      (if istrAt s 0 &&& 0x40 ≠ 0 then (c + 1, (istr_read s).2)
       else if c = 0 then (0, (istr_read s).2)
       else calc_wdc_poll c (istr_read s).2) := rfl

lemma calc_wdc_poll_zero_iff : ∀ (fuel : Nat) (s : M),
    ((calc_wdc_poll fuel s).1 = 0 ↔ ∀ k < fuel, istrAt s k &&& 0x40 = 0) := by
  intro fuel
  induction fuel with
  | zero =>
    intro s
    constructor
    · intro _ k hk; omega
    · intro _; rfl
  | succ c ih =>
    intro s
    rw [calc_wdc_poll_succ]
    have hshift : ∀ k, istrAt (istr_read s).2 k = istrAt s (k + 1) := by
      intro k
      rw [istrAt, istrAt, istr_read_istr, drop_comp]
    by_cases hb : istrAt s 0 &&& 0x40 ≠ 0
    · rw [if_pos hb]
      constructor
      · intro habs; exact absurd habs (by omega)
      · intro hall; exact absurd (hall 0 (by omega)) hb
    · rw [if_neg hb]
      have hb' : istrAt s 0 &&& 0x40 = 0 := not_ne_iff.mp hb
      by_cases hc : c = 0
      · rw [if_pos hc]
        constructor
        · intro _ k hk
          have hk0 : k = 0 := by omega
          rw [hk0]; exact hb'
        · intro _; rfl
      · rw [if_neg hc, ih]
        constructor
        · intro hall k hk
          rcases Nat.eq_zero_or_pos k with hk0 | hkpos
          · rw [hk0]; exact hb'
          · have := hall (k - 1) (by omega)
            rw [hshift, Nat.sub_add_cancel hkpos] at this
            exact this
        · intro hall k hk
          rw [hshift]
          exact hall (k + 1) (by omega)

lemma calc_wdc_poll_cia : ∀ (fuel : Nat) (s : M),
    (calc_wdc_poll fuel s).2.ciaReads = s.ciaReads := by
  intro fuel
  induction fuel with
  | zero => intro s; rfl
  | succ c ih =>
    intro s
    rw [calc_wdc_poll_succ]
    by_cases hb : istrAt s 0 &&& 0x40 ≠ 0
    · rw [if_pos hb, istr_read_cia]
    · rw [if_neg hb]
      by_cases hc : c = 0
      · rw [if_pos hc, istr_read_cia]
      · rw [if_neg hc, ih, istr_read_cia]

lemma calc_wdc_poll_level : ∀ (fuel : Nat) (s : M),
    (calc_wdc_poll fuel s).2.wdLevel = s.wdLevel := by
  intro fuel
  induction fuel with
  | zero => intro s; rfl
  | succ c ih =>
    intro s
    rw [calc_wdc_poll_succ]
    by_cases hb : istrAt s 0 &&& 0x40 ≠ 0
    · rw [if_pos hb, istr_read_level]
    · rw [if_neg hb]
      by_cases hc : c = 0
      · rw [if_pos hc, istr_read_level]
      · rw [if_neg hc, ih, istr_read_level]

lemma calc_wdc_poll_efreq : ∀ (fuel : Nat) (s : M),
    (calc_wdc_poll fuel s).2.efreq = s.efreq := by
  intro fuel
  induction fuel with
  | zero => intro s; rfl
  | succ c ih =>
    intro s
    rw [calc_wdc_poll_succ]
    by_cases hb : istrAt s 0 &&& 0x40 ≠ 0
    · rw [if_pos hb, istr_read_efreq]
    · rw [if_neg hb]
      by_cases hc : c = 0
      · rw [if_pos hc, istr_read_efreq]
      · rw [if_neg hc, ih, istr_read_efreq]

lemma scsi_soft_reset_istr (e : Nat) (s : M) :
    (scsi_soft_reset e s).2.istrReads = s.istrReads := by
  rw [scsi_soft_reset]
  split
  all_goals split
  all_goals
    simp only [interrupts_enable_istr, set_wdc_reg_istr, scsi_wait_istr,
      get_wdc_reg_istr, interrupts_disable_istr]

lemma scsi_soft_reset_cia (e : Nat) (s : M) :
    (scsi_soft_reset e s).2.ciaReads = s.ciaReads := by
  rw [scsi_soft_reset]
  split
  all_goals split
  all_goals
    simp only [interrupts_enable_cia, set_wdc_reg_cia, scsi_wait_cia,
      get_wdc_reg_cia, interrupts_disable_cia]

lemma scsi_soft_reset_level (e : Nat) (s : M) :
    (scsi_soft_reset e s).2.wdLevel = s.wdLevel := by
  rw [scsi_soft_reset]
  split
  all_goals split
  all_goals
    simp only [interrupts_enable_level, set_wdc_reg_level, scsi_wait_level,
      get_wdc_reg_level, interrupts_disable_level]

lemma scsi_soft_reset_efreq (e : Nat) (s : M) :
    (scsi_soft_reset e s).2.efreq = s.efreq := by
  rw [scsi_soft_reset]
  split
  all_goals split
  all_goals
    simp only [interrupts_enable_efreq, set_wdc_reg_efreq, scsi_wait_efreq,
      get_wdc_reg_efreq, interrupts_disable_efreq]

lemma scsi_soft_reset_pinned_reads (s : M)
    (hC : auxAt s 2 &&& 0x10 = 0) (hI : auxAt s 3 &&& 0x80 ≠ 0) :
    (scsi_soft_reset 0 s).2.scmdReads = s.scmdReads.drop 4 := by
  rw [scsi_soft_reset]
  set P := (get_wdc_reg 0x1f (interrupts_disable s)).2 with hP
  have hPr : P.scmdReads = s.scmdReads.drop 1 := by
    rw [hP, get_wdc_reg_reads, interrupts_disable_reads]
  set Q := (get_wdc_reg 0x17 P).2 with hQ
  have hQr : Q.scmdReads = s.scmdReads.drop 2 := by
    rw [hQ, get_wdc_reg_reads, hPr, drop_comp]
  set R := set_wdc_reg 0x00 (wdc_own_id 0) Q with hR
  have hRr : R.scmdReads = s.scmdReads.drop 2 := by rw [hR, set_wdc_reg_reads, hQr]
  set W := set_wdc_reg 0x18 0x00 R with hW
  have hWr : W.scmdReads = s.scmdReads.drop 2 := by rw [hW, set_wdc_reg_reads, hRr]
  have hWa : auxAt W 0 = auxAt s 2 := by rw [auxAt_of_drop s W 2 0 hWr]
  rw [scsi_wait_step 0x10 0 W (by rw [hWa]; simp [scsi_wait_sat, hC])]
  dsimp only
  rw [hWa, if_pos (show auxAt s 2 ≠ 0x100 by have := auxAt_lt s 2; omega)]
  set G := (get_wdc_reg 0x1f W).2 with hG
  have hGr : G.scmdReads = s.scmdReads.drop 3 := by
    rw [hG, get_wdc_reg_reads, hWr, drop_comp]
  have hGa : auxAt G 0 = auxAt s 3 := by rw [auxAt_of_drop s G 3 0 hGr]
  rw [scsi_wait_step 0x80 1 G (by rw [hGa]; simp [scsi_wait_sat, hI])]
  dsimp only
  rw [hGa, if_neg (show ¬ auxAt s 3 = 0x100 by have := auxAt_lt s 3; omega)]
  dsimp only
  rw [interrupts_enable_reads, set_wdc_reg_reads, get_wdc_reg_reads, hGr, drop_comp]

/-! ### C4: the calc_wdc_clock result formula -/

set_option maxHeartbeats 2000000 in
/-- C4: in a calc_wdc_clock run whose bounded waits complete on their
first status read, the function returns 0 when the post-reset SCSI status
reads 0xff, returns 0 when the SCSI-interrupt bit of SDMAC_ISTR never
sets within the 200000-iteration polling budget, and otherwise returns
efreq * treg * 80 / elapsed with treg = 10, where elapsed is the CIA tick
delta less the revision-dependent latency offset (292 for WD33C93, 380
for WD33C93A, 260 for WD33C93B). -/
theorem calc_wdc_clock_formula (s : M)
    (hof : s.efreq * 800 < 4294967296)
    (h0 : auxAt s 0 &&& 0x10 = 0)
    (h3 : auxAt s 3 &&& 0x10 = 0)
    (h4 : auxAt s 4 &&& 0x80 ≠ 0)
    (h6 : auxAt s 6 &&& 0x10 = 0) :
    (auxAt s 5 = 0xff → (calc_wdc_clock s).1 = 0) ∧
    (auxAt s 5 ≠ 0xff → (∀ k < 200000, istrAt s k &&& 0x40 = 0) →
      (calc_wdc_clock s).1 = 0) ∧
    (auxAt s 5 ≠ 0xff → (∃ k, k < 200000 ∧ istrAt s k &&& 0x40 ≠ 0) →
      (calc_wdc_clock s).1 = s.efreq * 10 * 80 / calc_wdc_elapsed s) ∧
    (wdc_latency_offset 1 = 292 ∧ wdc_latency_offset 2 = 380 ∧
      wdc_latency_offset 3 = 260) := by
  have hmain : (calc_wdc_clock s).1 =
      (if auxAt s 5 = 0xff then 0
       else if ∀ k < 200000, istrAt s k &&& 0x40 = 0 then 0
       else s.efreq * 10 * 80 / calc_wdc_elapsed s) := by
    rw [calc_wdc_clock]
    dsimp only
    have hD0 : auxAt (interrupts_disable s) 0 &&& 0x10 = 0 := h0
    rw [scsi_wait_cip_pinned (interrupts_disable s) hD0]
    dsimp only
    set A := (get_wdc_reg 0x1f (interrupts_disable s)).2 with hA
    have hAr : A.scmdReads = s.scmdReads.drop 1 := by
      rw [hA, get_wdc_reg_reads, interrupts_disable_reads]
    have hAistr : A.istrReads = s.istrReads := by
      rw [hA, get_wdc_reg_istr, interrupts_disable_istr]
    have hAcia : A.ciaReads = s.ciaReads := by
      rw [hA, get_wdc_reg_cia, interrupts_disable_cia]
    have hAlev : A.wdLevel = s.wdLevel := by
      rw [hA, get_wdc_reg_level, interrupts_disable_level]
    have hAef : A.efreq = s.efreq := by
      rw [hA, get_wdc_reg_efreq, interrupts_disable_efreq]
    set SC := (scsi_soft_reset 0 A).2 with hSC
    have hSCr : SC.scmdReads = s.scmdReads.drop 5 := by
      rw [hSC, scsi_soft_reset_pinned_reads A
        (by rw [auxAt_of_drop s A 1 2 hAr]; exact h3)
        (by rw [auxAt_of_drop s A 1 3 hAr]; exact h4), hAr, drop_comp]
    have hSCistr : SC.istrReads = s.istrReads := by
      rw [hSC, scsi_soft_reset_istr]; exact hAistr
    have hSCcia : SC.ciaReads = s.ciaReads := by
      rw [hSC, scsi_soft_reset_cia]; exact hAcia
    have hSClev : SC.wdLevel = s.wdLevel := by
      rw [hSC, scsi_soft_reset_level]; exact hAlev
    have hSCef : SC.efreq = s.efreq := by
      rw [hSC, scsi_soft_reset_efreq]; exact hAef
    have hsstat : (get_wdc_reg 0x17 SC).1 = auxAt s 5 := by
      rw [get_wdc_reg_fst, auxAt_of_drop s SC 5 0 hSCr]
    rw [hsstat]
    by_cases h5 : auxAt s 5 = 0xff
    · rw [if_pos h5, if_pos h5]
    · rw [if_neg h5, if_neg h5]
      set R2 := (get_wdc_reg 0x17 SC).2 with hR2
      have hR2r : R2.scmdReads = s.scmdReads.drop 6 := by
        rw [hR2, get_wdc_reg_reads, hSCr, drop_comp]
      have hR2istr : R2.istrReads = s.istrReads := by
        rw [hR2, get_wdc_reg_istr]; exact hSCistr
      have hR2cia : R2.ciaReads = s.ciaReads := by
        rw [hR2, get_wdc_reg_cia]; exact hSCcia
      have hR2lev : R2.wdLevel = s.wdLevel := by
        rw [hR2, get_wdc_reg_level]; exact hSClev
      have hR2ef : R2.efreq = s.efreq := by
        rw [hR2, get_wdc_reg_efreq]; exact hSCef
      set W5 := set_wdc_reg 0x02 10 (set_wdc_reg 0x01 (0x04 ||| 0x08)
        (set_wdc_reg 0x11 0 (set_wdc_reg 0x0f 7 (set_wdc_reg 0x15 7 R2)))) with hW5
      have hW5r : W5.scmdReads = s.scmdReads.drop 6 := by
        rw [hW5]; simp only [set_wdc_reg_reads]; exact hR2r
      have hW5istr : W5.istrReads = s.istrReads := by
        rw [hW5]; simp only [set_wdc_reg_istr]; exact hR2istr
      have hW5cia : W5.ciaReads = s.ciaReads := by
        rw [hW5]; simp only [set_wdc_reg_cia]; exact hR2cia
      have hW5lev : W5.wdLevel = s.wdLevel := by
        rw [hW5]; simp only [set_wdc_reg_level]; exact hR2lev
      have hW5ef : W5.efreq = s.efreq := by
        rw [hW5]; simp only [set_wdc_reg_efreq]; exact hR2ef
      set C1 := (cia_ticks W5).2 with hC1
      have hC1r : C1.scmdReads = s.scmdReads.drop 6 := by
        rw [hC1, cia_ticks_reads]; exact hW5r
      have hC1istr : C1.istrReads = s.istrReads := by
        rw [hC1, cia_ticks_istr]; exact hW5istr
      have hC1cia : C1.ciaReads = s.ciaReads.drop 3 := by
        rw [hC1, cia_ticks_cia, hW5cia]
      have hC1lev : C1.wdLevel = s.wdLevel := by
        rw [hC1, cia_ticks_level]; exact hW5lev
      have hC1ef : C1.efreq = s.efreq := by
        rw [hC1, cia_ticks_efreq]; exact hW5ef
      set W6 := set_wdc_reg 0x18 0x06 C1 with hW6
      have hW6r : W6.scmdReads = s.scmdReads.drop 6 := by
        rw [hW6, set_wdc_reg_reads]; exact hC1r
      have hW6istr : W6.istrReads = s.istrReads := by
        rw [hW6, set_wdc_reg_istr]; exact hC1istr
      have hW6cia : W6.ciaReads = s.ciaReads.drop 3 := by
        rw [hW6, set_wdc_reg_cia]; exact hC1cia
      have hW6lev : W6.wdLevel = s.wdLevel := by
        rw [hW6, set_wdc_reg_level]; exact hC1lev
      have hW6ef : W6.efreq = s.efreq := by
        rw [hW6, set_wdc_reg_efreq]; exact hC1ef
      rw [scsi_wait_cip_pinned W6 (by rw [auxAt_of_drop s W6 6 0 hW6r]; exact h6)]
      dsimp only
      set A2 := (get_wdc_reg 0x1f W6).2 with hA2
      have hA2istr : A2.istrReads = s.istrReads := by
        rw [hA2, get_wdc_reg_istr]; exact hW6istr
      have hA2cia : A2.ciaReads = s.ciaReads.drop 3 := by
        rw [hA2, get_wdc_reg_cia]; exact hW6cia
      have hA2lev : A2.wdLevel = s.wdLevel := by
        rw [hA2, get_wdc_reg_level]; exact hW6lev
      have hA2ef : A2.efreq = s.efreq := by
        rw [hA2, get_wdc_reg_efreq]; exact hW6ef
      have ht1 : (cia_ticks A2).1 =
          cia_ticks_calc (ciaAt s 3) (ciaAt s 4) (ciaAt s 5) := by
        rw [cia_ticks_fst, ciaAt_of_drop s A2 3 0 hA2cia,
          ciaAt_of_drop s A2 3 1 hA2cia, ciaAt_of_drop s A2 3 2 hA2cia]
      rw [ht1]
      set B2 := (cia_ticks A2).2 with hB2
      have hB2istr : B2.istrReads = s.istrReads := by
        rw [hB2, cia_ticks_istr]; exact hA2istr
      have hB2cia : B2.ciaReads = s.ciaReads.drop 6 := by
        rw [hB2, cia_ticks_cia, hA2cia, drop_comp]
      have hB2lev : B2.wdLevel = s.wdLevel := by
        rw [hB2, cia_ticks_level]; exact hA2lev
      have hB2ef : B2.efreq = s.efreq := by
        rw [hB2, cia_ticks_efreq]; exact hA2ef
      have hicongr : ∀ k, istrAt B2 k = istrAt s k :=
        fun k => istrAt_congr s B2 k hB2istr
      have hpoll0 : ((calc_wdc_poll 200000 B2).1 = 0) ↔
          (∀ k < 200000, istrAt s k &&& 0x40 = 0) := by
        rw [calc_wdc_poll_zero_iff]
        simp only [hicongr]
      have hpcia : (calc_wdc_poll 200000 B2).2.ciaReads = s.ciaReads.drop 6 := by
        rw [calc_wdc_poll_cia]; exact hB2cia
      have ht2 : (cia_ticks (calc_wdc_poll 200000 B2).2).1 =
          cia_ticks_calc (ciaAt s 6) (ciaAt s 7) (ciaAt s 8) := by
        rw [cia_ticks_fst, ciaAt_of_drop s _ 6 0 hpcia,
          ciaAt_of_drop s _ 6 1 hpcia, ciaAt_of_drop s _ 6 2 hpcia]
      rw [ht2]
      have hlev : (cia_ticks (calc_wdc_poll 200000 B2).2).2.wdLevel = s.wdLevel := by
        rw [cia_ticks_level, calc_wdc_poll_level]; exact hB2lev
      rw [hlev]
      have hef : (interrupts_enable
          (scsi_soft_reset 0 (cia_ticks (calc_wdc_poll 200000 B2).2).2).2).efreq =
            s.efreq := by
        rw [interrupts_enable_efreq, scsi_soft_reset_efreq, cia_ticks_efreq,
          calc_wdc_poll_efreq]
        exact hB2ef
      rw [hef]
      by_cases hcount : (calc_wdc_poll 200000 B2).1 = 0
      · rw [if_pos hcount, if_pos (hpoll0.mp hcount)]
      · rw [if_neg hcount, if_neg (fun hall => hcount (hpoll0.mpr hall))]
        rw [calc_wdc_elapsed]
        dsimp only
        have hm1 : s.efreq * 10 % 4294967296 = s.efreq * 10 :=
          Nat.mod_eq_of_lt (by omega)
        have hm2 : s.efreq * 10 * 80 % 4294967296 = s.efreq * 10 * 80 :=
          Nat.mod_eq_of_lt (by
            have he : s.efreq * 10 * 80 = s.efreq * 800 := by ring
            omega)
        rw [hm1, hm2]
  refine ⟨?_, ?_, ?_, ⟨rfl, rfl, rfl⟩⟩
  · intro h5
    rw [hmain, if_pos h5]
  · intro h5 hall
    rw [hmain, if_neg h5, if_pos hall]
  · intro h5 hex
    rw [hmain, if_neg h5,
      if_neg (fun hall => by obtain ⟨k, hk, hset⟩ := hex; exact hset (hall k hk))]

/-- Witness for C4 on a concrete trace: status 0x00 after reset, the SCSI
interrupt pending at the first poll, tick samples 0x1000 and 0x0c00, and
the WD33C93A offset 380: 715909 * 800 / 644 = 889327 kHz. -/
theorem calc_wdc_clock_formula_witness :
    calc_ok_state.efreq * 800 < 4294967296 ∧
    (calc_wdc_clock calc_ok_state).1 = 889327 := by
  have h := calc_wdc_clock_formula calc_ok_state (by decide) (by decide)
    (by decide) (by decide) (by decide)
  refine ⟨by decide, ?_⟩
  have h2 := h.2.2.1 (by decide) ⟨0, by decide, by decide⟩
  rw [h2]
  decide
